import Mathlib

/-!
# Shallow embedding of `src/app.py` (fas-psd-render)

This file embeds the entity-resolution and aggregation engine behind the
`/psd`, `/top`, `/series` and `/compare` endpoints of `src/app.py` and
settles the frozen claims about it.

Modelling conventions:

* Python strings are lists of Unicode code points (`PyStr := List Nat`);
  `codes` converts a Lean string literal into that representation.
  Character classes used by the source (`str.lower`, `str.strip`,
  the regexes `\s+`, `\d{5,8}`, `[^a-z0-9\s]`) are modelled on the ASCII
  ranges the program exercises them with.
* Numeric row values (`isinstance(v, (int, float))`) are modelled as `Int`:
  the program only compares, sums and passes them through, so the exact
  float representation is irrelevant to every claim.  A row `Value` that is
  absent or non-numeric is `none`.
* Upstream HTTP fetches (`call_fas` and its wrappers) are out of scope per
  the spec; they are modelled as oracle functions handed to the handlers,
  where `none` models a failed fetch (connection error or non-200 /
  non-`ok` envelope).  The global catalog caches are transparent to every
  claim and are folded into the catalog oracles; the bounded year-data
  cache (`_CACHE["year_data"]`) is modelled explicitly as state.
* Python dicts used as records (`catalog entries`, data rows) become
  structures with `Option` fields; `r.get(k)` returning a falsy value
  (absent, `None`, `""`) is `none` / an empty list.
* The Flask routing layer (query-string extraction and `int(...)` parsing
  of parameters) is out of scope; handlers receive already-parsed values.
  The `unit` / `meta_hint` accumulators of the handlers are omitted from
  the modelled payloads: no claim mentions them.
-/

namespace App

abbrev PyStr := List Nat

/-- Code points of a string literal, the bridge from Lean literals to the
`PyStr` model. -/
def codes (s : String) : PyStr := s.data.map Char.toNat

/-- ASCII lower-casing of one code point, modelling `str.lower`. -/
def pyToLower (c : Nat) : Nat := if 65 ≤ c ∧ c ≤ 90 then c + 32 else c

/-- Whitespace class of the `\s` regex and `str.strip` (ASCII part). -/
def isSpace (c : Nat) : Bool := c == 32 || c == 9 || c == 10 || c == 13 || c == 11 || c == 12

/-- Leading-whitespace removal. -/
def trimLeft (s : PyStr) : PyStr := s.dropWhile isSpace

/-- Trailing-whitespace removal. -/
def trimRight (s : PyStr) : PyStr := (s.reverse.dropWhile isSpace).reverse

/-- `str.strip()`. -/
def pyStrip (s : PyStr) : PyStr := trimRight (trimLeft s)

/-- `re.sub(r"\s+", " ", s)`: every maximal whitespace run becomes one
space. -/
def collapseWs : PyStr → PyStr
  | [] => []
  | [c] => [if isSpace c then 32 else c]
  | a :: b :: rest =>
    if isSpace a && isSpace b then collapseWs (b :: rest)
    else (if isSpace a then 32 else a) :: collapseWs (b :: rest)

/-- `normalize` of `app.py`: lower-case, strip, collapse whitespace runs. -/
def normalize (s : PyStr) : PyStr := collapseWs (pyStrip (s.map pyToLower))

/-- The character class kept by `re.sub(r"[^a-z0-9\s]", "", ·)`. -/
def keepAlnumSpace (c : Nat) : Bool :=
  (decide (97 ≤ c) && decide (c ≤ 122)) || (decide (48 ≤ c) && decide (c ≤ 57)) || isSpace c

/-- `strip_nonletters` of `app.py`. -/
def strip_nonletters (s : PyStr) : PyStr := (normalize s).filter keepAlnumSpace

/-- Python truthiness of an optional string (`None` and `""` are falsy). -/
def pyTruthy : Option PyStr → Bool
  | none => false
  | some s => !s.isEmpty

/-- `a or b` for an optional string versus a default. -/
def orElseStr (a : Option PyStr) (b : PyStr) : PyStr :=
  match a with
  | some s => if s.isEmpty then b else s
  | none => b

/-- Decimal-digit class of the `\d` regex (ASCII range; the claims concern
decimal digits only). -/
def isDigitB (c : Nat) : Bool := decide (48 ≤ c) && decide (c ≤ 57)

/-- `re.fullmatch(r"\d{5,8}", s)` succeeded. -/
def isCodePattern (s : PyStr) : Bool :=
  s.all isDigitB && decide (5 ≤ s.length) && decide (s.length ≤ 8)

/-- Python substring test `needle in hay`. -/
def isSubstr (needle : PyStr) : PyStr → Bool
  | [] => needle.isEmpty
  | c :: rest => needle.isPrefixOf (c :: rest) || isSubstr needle rest

/-- Lookup in an association table keyed by `PyStr` (a Python dict `.get`). -/
def lookupTable {α : Type} (t : List (PyStr × α)) (k : PyStr) : Option α :=
  (t.find? (fun e => decide (e.1 = k))).map Prod.snd

/-- `PT_COMMODITY_ALIASES` of `app.py` (PT → EN candidate terms). -/
def PT_COMMODITY_ALIASES : List (PyStr × List PyStr) := [
  (codes "soja", [codes "soybeans", codes "soybean", codes "soy", codes "oilseed, soybean"]),
  (codes "milho", [codes "corn", codes "maize"]),
  (codes "arroz", [codes "rice"]),
  (codes "algodao", [codes "cotton"]),
  (codes "algodão", [codes "cotton"]),
  (codes "cafe", [codes "coffee"]),
  (codes "café", [codes "coffee"]),
  (codes "acucar", [codes "sugar"]),
  (codes "açúcar", [codes "sugar"]),
  (codes "carne bovina", [codes "beef", codes "bovine", codes "cattle", codes "beef and veal"]),
  (codes "bovina", [codes "beef", codes "bovine", codes "cattle"]),
  (codes "boi", [codes "beef", codes "cattle"]),
  (codes "gado", [codes "cattle", codes "beef"]),
  (codes "carne suina", [codes "pork", codes "swine", codes "hogs"]),
  (codes "carne suína", [codes "pork", codes "swine", codes "hogs"]),
  (codes "suinos", [codes "pork", codes "swine", codes "hogs"]),
  (codes "suínos", [codes "pork", codes "swine", codes "hogs"]),
  (codes "frango", [codes "chicken", codes "broiler"]),
  (codes "carne de frango", [codes "chicken", codes "broiler"]),
  (codes "aves", [codes "poultry", codes "chicken"])]

/-- `PT_COUNTRY_ALIASES` of `app.py` (PT → EN country names). -/
def PT_COUNTRY_ALIASES : List (PyStr × PyStr) := [
  (codes "brasil", codes "brazil"),
  (codes "eua", codes "united states"),
  (codes "estados unidos", codes "united states"),
  (codes "reino unido", codes "united kingdom"),
  (codes "inglaterra", codes "united kingdom"),
  (codes "alemanha", codes "germany"),
  (codes "franca", codes "france"),
  (codes "frança", codes "france"),
  (codes "espanha", codes "spain"),
  (codes "italia", codes "italy"),
  (codes "itália", codes "italy"),
  (codes "mexico", codes "mexico"),
  (codes "méxico", codes "mexico"),
  (codes "argentina", codes "argentina"),
  (codes "paraguai", codes "paraguay"),
  (codes "uruguai", codes "uruguay"),
  (codes "china", codes "china"),
  (codes "india", codes "india"),
  (codes "índia", codes "india"),
  (codes "russia", codes "russia"),
  (codes "rússia", codes "russia"),
  (codes "ucranIa", codes "ukraine"),
  (codes "ucrânia", codes "ukraine"),
  (codes "africa do sul", codes "south africa"),
  (codes "áfrica do sul", codes "south africa"),
  (codes "uniao europeia", codes "european union"),
  (codes "união europeia", codes "european union")]

/-- `METRIC_ALIASES` of `app.py` (user metric → PS&D `AttributeDescription`). -/
def METRIC_ALIASES : List (PyStr × PyStr) := [
  (codes "producao", codes "Production"),
  (codes "produção", codes "Production"),
  (codes "production", codes "Production"),
  (codes "consumo", codes "Domestic Consumption"),
  (codes "consumo domestico", codes "Domestic Consumption"),
  (codes "consumo doméstico", codes "Domestic Consumption"),
  (codes "domestic consumption", codes "Domestic Consumption"),
  (codes "importacao", codes "MY Imports"),
  (codes "importação", codes "MY Imports"),
  (codes "imports", codes "MY Imports"),
  (codes "my imports", codes "MY Imports"),
  (codes "ty imports", codes "TY Imports"),
  (codes "exportacao", codes "MY Exports"),
  (codes "exportação", codes "MY Exports"),
  (codes "exports", codes "MY Exports"),
  (codes "my exports", codes "MY Exports"),
  (codes "ty exports", codes "TY Exports"),
  (codes "estoque inicial", codes "Beginning Stocks"),
  (codes "beginning stocks", codes "Beginning Stocks"),
  (codes "estoque final", codes "Ending Stocks"),
  (codes "ending stocks", codes "Ending Stocks"),
  (codes "oferta total", codes "Total Supply"),
  (codes "total supply", codes "Total Supply")]

/-- `metric_canonical` of `app.py`. -/
def metric_canonical (metric : PyStr) : PyStr :=
  (lookupTable METRIC_ALIASES (normalize metric)).getD metric

/-- A commodity catalog entry (the provider dict, restricted to the keys
`commodity_display` / `commodity_code` read). -/
structure CommodityEntry where
  CommodityName : Option PyStr := none
  Name : Option PyStr := none
  CommodityDescription : Option PyStr := none
  Description : Option PyStr := none
  CommodityCode : Option PyStr := none
  Code : Option PyStr := none
  Id : Option PyStr := none
deriving DecidableEq

/-- Python `a or b or c or ""`: the first truthy entry, else `""`. -/
def firstTruthy : List (Option PyStr) → PyStr
  | [] => []
  | none :: rest => firstTruthy rest
  | some s :: rest => if s.isEmpty then firstTruthy rest else s

/-- `commodity_display` of `app.py`. -/
def commodity_display (it : CommodityEntry) : PyStr :=
  pyStrip (firstTruthy [it.CommodityName, it.Name, it.CommodityDescription, it.Description])

/-- `commodity_code` of `app.py`. -/
def commodity_code (it : CommodityEntry) : PyStr :=
  pyStrip (firstTruthy [it.CommodityCode, it.Code, it.Id])

/-- `score_commodity` of `app.py`. -/
def score_commodity (name query_norm : PyStr) : Int :=
  let n := normalize name
  (if !query_norm.isEmpty && isSubstr query_norm n then (10 : Int) else 0)
  + (if query_norm ∈ [codes "soja", codes "soybeans", codes "soybean", codes "soy"] then
      (if isSubstr (codes "oilseed") n && isSubstr (codes "soybean") n then (250 : Int) else 0)
      + (if pyStrip n = codes "soybeans" ∨ (codes "soybeans").isPrefixOf n then (200 : Int) else 0)
      + (if isSubstr (codes "meal") n then (-200 : Int) else 0)
      + (if isSubstr (codes "oil, soybean") n then (-120 : Int) else 0)
    else 0)
  - (((n.length - 26) / 5 : Nat) : Int)

/-- The per-entry match test of the candidate-collection loop in
`resolve_commodity`. -/
def commodityMatch (a_norm a_clean nm_norm nm_clean : PyStr) : Bool :=
  (!a_norm.isEmpty && isSubstr a_norm nm_norm)
  || (!a_clean.isEmpty && isSubstr a_clean nm_clean)
  || (!a_norm.isEmpty && a_norm == nm_norm)

/-- Candidates contributed by one alias term `a` (inner loop of
`resolve_commodity`). -/
def candidatesFor (commodities_list : List CommodityEntry) (a : PyStr) : List (PyStr × PyStr) :=
  commodities_list.filterMap (fun it =>
    let nm := commodity_display it
    let code := commodity_code it
    if nm.isEmpty || code.isEmpty then none
    else if commodityMatch (normalize a) (strip_nonletters a) (normalize nm) (strip_nonletters nm)
    then some (nm, code)
    else none)

/-- The best-score selection loop of `resolve_commodity` (strict `>` against
a running best initialised to `-10**9`). -/
def bestCandidate (key : PyStr) (candidates : List (PyStr × PyStr)) :
    Option PyStr × Option PyStr :=
  let r := candidates.foldl
    (fun (b : Int × Option PyStr × Option PyStr) c =>
      if score_commodity c.1 key > b.1 then (score_commodity c.1 key, some c.2, some c.1) else b)
    (-(10 ^ 9 : Int), none, none)
  (r.2.1, r.2.2)

/-- `resolve_commodity` of `app.py`. -/
def resolve_commodity (commodities_list : List CommodityEntry) (user_input : PyStr) :
    Option PyStr × Option PyStr :=
  let raw := pyStrip user_input
  if isCodePattern raw then (some raw, none)
  else
    let key := normalize raw
    let aliases := (lookupTable PT_COMMODITY_ALIASES key).getD [raw]
    let candidates := aliases.flatMap (candidatesFor commodities_list)
    if candidates.isEmpty then (none, none)
    else bestCandidate key candidates

/-- A country catalog entry (the provider dict, restricted to the keys
`resolve_country` reads). -/
structure CountryEntry where
  CountryName : Option PyStr := none
  Name : Option PyStr := none
  Description : Option PyStr := none
  CountryCode : Option PyStr := none
  Code : Option PyStr := none
  Id : Option PyStr := none
deriving DecidableEq

/-- The catalog scan of `resolve_country`, parametrised by the translated
term under `normalize` and `strip_nonletters` (first hit wins). -/
def countryScan (countries_list : List CountryEntry) (t_norm t_clean : PyStr) :
    Option PyStr × Option PyStr :=
  match countries_list with
  | [] => (none, none)
  | it :: rest =>
    let nm := pyStrip (firstTruthy [it.CountryName, it.Name, it.Description])
    let code := pyStrip (firstTruthy [it.CountryCode, it.Code, it.Id])
    if nm.isEmpty || code.isEmpty then countryScan rest t_norm t_clean
    else
      let nm_norm := normalize nm
      let nm_clean := strip_nonletters nm
      if (!t_norm.isEmpty && t_norm == nm_norm)
          || (!t_norm.isEmpty && isSubstr t_norm nm_norm)
          || (!t_clean.isEmpty && isSubstr t_clean nm_clean)
      then (some code, some nm)
      else countryScan rest t_norm t_clean

/-- `resolve_country` of `app.py`. -/
def resolve_country (countries_list : List CountryEntry) (user_input : PyStr) :
    Option PyStr × Option PyStr :=
  let raw := pyStrip user_input
  let translated := (lookupTable PT_COUNTRY_ALIASES (normalize raw)).getD raw
  countryScan countries_list (normalize translated) (strip_nonletters translated)

/-- `pick_world_code` of `app.py`: try `"World"`, `"world"`, `"WORLD"` in
turn, returning the first attempt whose code is truthy. -/
def pick_world_code (countries_list : List CountryEntry) : Option PyStr × Option PyStr :=
  let r1 := resolve_country countries_list (codes "World")
  if pyTruthy r1.1 then r1 else
  let r2 := resolve_country countries_list (codes "world")
  if pyTruthy r2.1 then r2 else
  let r3 := resolve_country countries_list (codes "WORLD")
  if pyTruthy r3.1 then r3 else (none, none)

/-- One provider data row (the keys the aggregator reads). -/
structure Row where
  AttributeDescription : Option PyStr := none
  Value : Option Int := none
  UnitDescription : Option PyStr := none
  CommodityDescription : Option PyStr := none
  CountryName : Option PyStr := none
  CountryCode : Option PyStr := none
  MarketYear : Option Int := none
  Month : Option PyStr := none
  CalendarYear : Option PyStr := none
deriving DecidableEq

/-- `(r.get("AttributeDescription") or "").strip()`. -/
def rowAttr (r : Row) : PyStr := pyStrip (r.AttributeDescription.getD [])

/-- `(r.get("CountryName") or "").strip()`. -/
def rowCName (r : Row) : PyStr := pyStrip (r.CountryName.getD [])

/-- `(r.get("CountryCode") or "").strip()`. -/
def rowCCode (r : Row) : PyStr := pyStrip (r.CountryCode.getD [])

/-- `(r.get("UnitDescription") or "").strip()`. -/
def rowUnit (r : Row) : PyStr := pyStrip (r.UnitDescription.getD [])

/-- The `wanted` attribute set of `filter_to_balance_sheet`. -/
def WANTED : List PyStr := [
  codes "Production", codes "Domestic Consumption",
  codes "MY Imports", codes "TY Imports", codes "MY Exports", codes "TY Exports",
  codes "Beginning Stocks", codes "Ending Stocks", codes "Total Supply"]

/-- `filter_to_balance_sheet` of `app.py`. -/
def filter_to_balance_sheet (rows : List Row) : List Row :=
  rows.filter (fun r => decide (rowAttr r ∈ WANTED))

/-- Python dict assignment `d[k] = v`: overwrite in place, else append
(insertion order preserved). -/
def dictSet {α : Type} (d : List (PyStr × α)) (k : PyStr) (v : α) : List (PyStr × α) :=
  if d.any (fun e => decide (e.1 = k)) then d.map (fun e => if e.1 = k then (k, v) else e)
  else d ++ [(k, v)]

/-- The metadata record built by `summarize` (last contributing row wins). -/
structure Meta where
  CommodityDescription : Option PyStr := none
  CountryName : Option PyStr := none
  MarketYear : Option Int := none
  Month : Option PyStr := none
  CalendarYear : Option PyStr := none
deriving DecidableEq

/-- `summarize` of `app.py`: attribute→value dict, attribute→unit dict, and
the metadata of the last row with a non-empty attribute. -/
def summarize (rows : List Row) :
    List (PyStr × Option Int) × List (PyStr × PyStr) × Meta :=
  rows.foldl
    (fun (st : List (PyStr × Option Int) × List (PyStr × PyStr) × Meta) r =>
      let k := rowAttr r
      if k.isEmpty then st
      else
        (dictSet st.1 k r.Value, dictSet st.2.1 k (rowUnit r),
          { CommodityDescription := some (pyStrip (r.CommodityDescription.getD []))
            CountryName := some (rowCName r)
            MarketYear := r.MarketYear
            Month := r.Month
            CalendarYear := r.CalendarYear }))
    ([], [], {})

/-- The `meta_hint` record of `meta_from_any_row`. -/
structure MetaHint where
  CommodityDescription : Option PyStr := none
  Month : Option PyStr := none
  CalendarYear : Option PyStr := none
deriving DecidableEq

/-- `meta_from_any_row` of `app.py`. -/
def meta_from_any_row (rows : List Row) : MetaHint :=
  match rows.find? (fun r => pyTruthy r.UnitDescription && pyTruthy r.CommodityDescription
      && pyTruthy r.Month && pyTruthy r.CalendarYear) with
  | some r =>
    { CommodityDescription := some (pyStrip (r.CommodityDescription.getD []))
      Month := some (pyStrip (r.Month.getD []))
      CalendarYear := some (pyStrip (r.CalendarYear.getD [])) }
  | none =>
    match rows.find? (fun r => pyTruthy r.CommodityDescription) with
    | some r =>
      { CommodityDescription := some (pyStrip (r.CommodityDescription.getD []))
        Month := if pyTruthy r.Month then some (pyStrip (r.Month.getD [])) else none
        CalendarYear := if pyTruthy r.CalendarYear then some (pyStrip (r.CalendarYear.getD []))
          else none }
    | none => {}

/-- `sum_world_for_metric` of `app.py`: sum numeric values of non-"world"
rows; unit from the first contributing row. -/
def sum_world_for_metric (rows_metric : List Row) : Option Int × Option PyStr × MetaHint :=
  let st := rows_metric.foldl
    (fun (st : Int × Bool × Option PyStr) r =>
      if normalize (rowCName r) = codes "world" then st
      else
        match r.Value with
        | some v => (st.1 + v, true, if st.2.2 = none then some (rowUnit r) else st.2.2)
        | none => st)
    (0, false, none)
  ((if st.2.1 then some st.1 else none), st.2.2, meta_from_any_row rows_metric)

/-- `value.replace("|", ",").replace(";", ",")` (single-character
separators). -/
def replaceSeps (s : PyStr) : PyStr := s.map (fun c => if c = 124 ∨ c = 59 then 44 else c)

/-- The split-strip-drop-empties stage of `parse_countries_param`. -/
def splitParts (value : PyStr) : List PyStr :=
  (((replaceSeps (pyStrip value)).splitOn 44).map pyStrip).filter (fun p => !p.isEmpty)

/-- The duplicate-removal loop of `parse_countries_param` (first occurrence
of each normalized form wins; order preserved). -/
def dedupGo (seen : List PyStr) : List PyStr → List PyStr
  | [] => []
  | p :: rest =>
    if normalize p ∈ seen then dedupGo seen rest
    else p :: dedupGo (normalize p :: seen) rest

/-- `parse_countries_param` of `app.py`. -/
def parse_countries_param (value : PyStr) : List PyStr :=
  if value.isEmpty then [] else dedupGo [] (splitParts value)

/-! ## Year-data cache (`_CACHE["year_data"]` and `fetch_year_data`)

The cache is a Python dict keyed by `(commodityCode, marketYear)`; dicts
iterate in insertion order, so it is modelled as an insertion-ordered
association list (oldest entry first).  `pop(next(iter(d)))` removes the
head.  The upstream call is an oracle; `none` models `st != 200 or not
env.get("ok")`. -/

abbrev YKey := PyStr × Int

abbrev YearCache := List (YKey × List Row)

/-- `key in _CACHE["year_data"]` / `_CACHE["year_data"][key]`. -/
def cacheLookup (c : YearCache) (k : YKey) : Option (List Row) :=
  (c.find? (fun e => decide (e.1 = k))).map Prod.snd

/-- `fetch_year_data` of `app.py`: cache hit returns the stored rows; a
failed fetch returns an error and leaves the cache alone; a successful
fetch stores the rows and then evicts the oldest entry if the size
exceeds 50. -/
def fetch_year_data (oracle : YKey → Option (List Row)) (c : YearCache) (k : YKey) :
    Option (List Row) × YearCache :=
  match cacheLookup c k with
  | some rows => (some rows, c)
  | none =>
    match oracle k with
    | none => (none, c)
    | some rows =>
      let c2 := c ++ [(k, rows)]
      (some rows, if 50 < c2.length then c2.tail else c2)

/-! ## Handlers

The distinct error returns of the handlers (HTTP 400/404/502 JSON bodies)
are modelled as an error enumeration. -/

inductive Err where
  | missingParam
  | emptyCountries
  | invertedRange
  | oversizedRange
  | upstreamCommodities
  | upstreamCountries
  | upstreamData
  | commodityNotFound
  | countryNotFound
  | noCountryResolved
  | noData
deriving DecidableEq

/-- One entry of the `/top` ranking (`{"countryCode", "countryName",
"value"}`). -/
structure TopRow where
  countryCode : PyStr
  countryName : PyStr
  value : Int
deriving DecidableEq

/-- The row-collection loop of the `/top` handler: keep rows of the
requested attribute with a numeric value whose country is not "world". -/
def qualifyTopRows (rows : List Row) (metric : PyStr) : List TopRow :=
  rows.filterMap (fun r =>
    if rowAttr r ≠ metric then none
    else
      match r.Value with
      | none => none
      | some v =>
        if normalize (rowCName r) = codes "world" then none
        else some ⟨rowCCode r, rowCName r, v⟩)

/-- Stable descending insertion: the new element goes after every element
of equal or larger key. -/
def insertDescBy {α : Type} (key : α → Int) (x : α) : List α → List α
  | [] => [x]
  | y :: ys => if key x ≤ key y then y :: insertDescBy key x ys else x :: y :: ys

/-- Behavioural model of `list.sort(key=..., reverse=True)`: a stable
descending sort. -/
def sortDescBy {α : Type} (key : α → Int) (l : List α) : List α :=
  l.foldl (fun acc x => insertDescBy key x acc) []

/-- `n_i = max(1, min(n_i, 60))` of the `/top` handler. -/
def clampN (n : Int) : Nat := (max 1 (min n 60)).toNat

/-- The `/top` payload (fields no claim mentions are omitted). -/
structure TopOut where
  commodityCode : PyStr
  commodityFound : Option PyStr
  metricUsed : PyStr
  nUsed : Nat
  top : List TopRow
deriving DecidableEq

/-- The `/top` handler of `app.py` (`top`). -/
def topHandler (fetchComm : Option (List CommodityEntry))
    (fetchYear : PyStr → Int → Option (List Row))
    (commodity_name metric_in : PyStr) (year : Int) (n : Int) : Except Err TopOut :=
  if commodity_name.isEmpty then .error .missingParam
  else
    let n_i := clampN n
    let metric := metric_canonical metric_in
    match fetchComm with
    | none => .error .upstreamCommodities
    | some commodities_list =>
      match resolve_commodity commodities_list commodity_name with
      | (none, _) => .error .commodityNotFound
      | (some ccode, cfound) =>
        if ccode.isEmpty then .error .commodityNotFound
        else
          match fetchYear ccode year with
          | none => .error .upstreamData
          | some rows =>
            let metric_rows := qualifyTopRows rows metric
            if metric_rows.isEmpty then .error .noData
            else .ok { commodityCode := ccode, commodityFound := cfound, metricUsed := metric,
                       nUsed := n_i, top := (sortDescBy TopRow.value metric_rows).take n_i }

/-- One point of a `/series` time series. -/
structure SeriesPoint where
  year : Int
  value : Option Int
  note : Option PyStr := none
deriving DecidableEq

/-- The country words the handlers treat as the world scope. -/
def WORLD_WORDS : List PyStr := [codes "world", codes "mundo", codes "global", codes "all"]

/-- The body of the per-year loop of the `/series` handler. -/
def seriesPointFor (fetchYear : PyStr → Int → Option (List Row)) (ccode metric : PyStr)
    (is_world : Bool) (world_code country_code : Option PyStr) (y : Int) : SeriesPoint :=
  match fetchYear ccode y with
  | none => { year := y, value := none, note := some (codes "fetch_error") }
  | some rows =>
    let mrows := rows.filter (fun r => decide (rowAttr r = metric))
    if mrows.isEmpty then { year := y, value := none }
    else
      match (if is_world && pyTruthy world_code then
          mrows.find? (fun r => decide (rowCCode r = world_code.getD [])) else none) with
      | some mr => { year := y, value := mr.Value }
      | none =>
        match (if !is_world && pyTruthy country_code then
            mrows.find? (fun r => decide (rowCCode r = country_code.getD [])) else none) with
        | some mr => { year := y, value := mr.Value }
        | none =>
          if is_world then { year := y, value := (sum_world_for_metric mrows).1 }
          else { year := y, value := none }

/-- The `for y in range(y_from, y_to + 1)` loop of the `/series` handler
(each iteration appends exactly one point). -/
def seriesLoop (fetchYear : PyStr → Int → Option (List Row)) (ccode metric : PyStr)
    (is_world : Bool) (world_code country_code : Option PyStr)
    (y_from y_to : Int) : List SeriesPoint :=
  (List.range ((y_to - y_from).toNat + 1)).map
    (fun (i : Nat) =>
      seriesPointFor fetchYear ccode metric is_world world_code country_code (y_from + (i : Int)))

/-- The country-resolution stage of the `/series` handler: on country-fetch
failure or an empty catalog both codes stay `None`; in world scope
`pick_world_code` is consulted; otherwise an unresolvable country is a 404. -/
def seriesCountryStep (fetchCtry : Option (List CountryEntry)) (is_world : Bool)
    (country_name : PyStr) :
    Except Err ((Option PyStr × Option PyStr) × (Option PyStr × Option PyStr)) :=
  match fetchCtry with
  | none => .ok ((none, none), (none, none))
  | some countries_list =>
    if countries_list.isEmpty then .ok ((none, none), (none, none))
    else if is_world then .ok (pick_world_code countries_list, (none, none))
    else
      let rc := resolve_country countries_list country_name
      if pyTruthy rc.1 then .ok ((none, none), rc) else .error .countryNotFound

/-- The `/series` payload (fields no claim mentions are omitted). -/
structure SeriesOut where
  commodityCode : PyStr
  commodityFound : Option PyStr
  metricUsed : PyStr
  countryResolved : PyStr
  series : List SeriesPoint
deriving DecidableEq

/-- The `/series` handler of `app.py` (`series`); `from`/`to` arrive as
already-parsed integers (query-string extraction is out of scope). -/
def seriesHandler (fetchComm : Option (List CommodityEntry))
    (fetchCtry : Option (List CountryEntry))
    (fetchYear : PyStr → Int → Option (List Row))
    (commodity_name country_name metric_in : PyStr) (y_from y_to : Int) :
    Except Err SeriesOut :=
  if commodity_name.isEmpty then .error .missingParam
  else if y_to < y_from then .error .invertedRange
  else if 40 < y_to - y_from then .error .oversizedRange
  else
    let metric := metric_canonical metric_in
    match fetchComm with
    | none => .error .upstreamCommodities
    | some commodities_list =>
      match resolve_commodity commodities_list commodity_name with
      | (none, _) => .error .commodityNotFound
      | (some ccode, cfound) =>
        if ccode.isEmpty then .error .commodityNotFound
        else
          let is_world := decide (normalize country_name ∈ WORLD_WORDS)
          match seriesCountryStep fetchCtry is_world country_name with
          | .error e => .error e
          | .ok ((world_code, world_name), (country_code, country_label)) =>
            .ok { commodityCode := ccode, commodityFound := cfound, metricUsed := metric,
                  countryResolved := if is_world then orElseStr world_name (codes "World")
                    else orElseStr country_label country_name,
                  series := seriesLoop fetchYear ccode metric is_world world_code country_code
                    y_from y_to }

/-- One resolved-country record of the `/compare` handler
(`{"input", "code", "name"}`). -/
structure RC where
  input : PyStr
  code : Option PyStr
  name : Option PyStr
deriving DecidableEq

/-- The per-country resolution loop of `/compare`. -/
def resolveCountries (countries_list : List CountryEntry) (countries_requested : List PyStr) :
    List RC :=
  countries_requested.map (fun c =>
    let r := resolve_country countries_list c
    if pyTruthy r.1 && pyTruthy r.2 then { input := c, code := r.1, name := r.2 }
    else { input := c, code := none, name := none })

/-- One point of a `/compare` series-mode series (no `note` field: a failed
per-year fetch yields a bare null point there). -/
structure CPoint where
  year : Int
  value : Option Int
deriving DecidableEq

/-- One result slot of `/compare`.  A key absent from the emitted JSON dict
is modelled as `none`. -/
structure CompareSlot where
  country : Option PyStr := none
  countryCode : Option PyStr := none
  meta : Option Meta := none
  balance_sheet : Option (List (PyStr × Option Int)) := none
  series : Option (List CPoint) := none
  error : Option PyStr := none
deriving DecidableEq

/-- The per-country slot of `/compare` in `mode=psd`. -/
def psdSlot (rows_bs : List Row) (rc : RC) : CompareSlot :=
  if !pyTruthy rc.code then { country := some rc.input, error := some (codes "country_not_found") }
  else
    let crows := rows_bs.filter (fun r => decide (rowCCode r = rc.code.getD []))
    if crows.isEmpty then
      { country := rc.name, countryCode := rc.code, error := some (codes "no_data") }
    else
      let s := summarize crows
      { country := rc.name, countryCode := rc.code, meta := some s.2.2,
        balance_sheet := some s.1 }

/-- The body of the per-year loop of `/compare` in `mode=series` (note: a
failed per-year fetch yields a bare null point, with no error marker). -/
def comparePointFor (fetchYear : PyStr → Int → Option (List Row)) (ccode metric code : PyStr)
    (y : Int) : CPoint :=
  match fetchYear ccode y with
  | none => { year := y, value := none }
  | some rows =>
    let mrows := rows.filter (fun r => decide (rowAttr r = metric ∧ rowCCode r = code))
    match mrows.head? with
    | none => { year := y, value := none }
    | some mr => { year := y, value := mr.Value }

/-- The per-country slot of `/compare` in `mode=series`. -/
def compareSeriesSlot (fetchYear : PyStr → Int → Option (List Row)) (ccode metric : PyStr)
    (y_from y_to : Int) (rc : RC) : CompareSlot :=
  if !pyTruthy rc.code then
    { country := some rc.input, countryCode := none, series := none,
      error := some (codes "country_not_found") }
  else
    let points := (List.range ((y_to - y_from).toNat + 1)).map (fun (i : Nat) =>
      comparePointFor fetchYear ccode metric (rc.code.getD []) (y_from + (i : Int)))
    { country := rc.name, countryCode := rc.code, series := some points }

/-- The `/compare` payload (fields no claim mentions are omitted). -/
structure CompareOut where
  commodityCode : PyStr
  commodityFound : Option PyStr
  results : List CompareSlot
  resolved_countries : List RC
deriving DecidableEq

/-- The `/compare` handler of `app.py` (`compare`).  `year`, `from`, `to`
arrive as already-parsed optional integers (`none` = parameter missing). -/
def compareHandler (fetchComm : Option (List CommodityEntry))
    (fetchCtry : Option (List CountryEntry))
    (fetchYear : PyStr → Int → Option (List Row))
    (mode_in commodity_name countries_raw metric_in : PyStr)
    (year : Option Int) (y_from y_to : Option Int) : Except Err CompareOut :=
  let mode := normalize mode_in
  if commodity_name.isEmpty || countries_raw.isEmpty then .error .missingParam
  else
    let countries_requested := parse_countries_param countries_raw
    if countries_requested.isEmpty then .error .emptyCountries
    else
      match fetchComm with
      | none => .error .upstreamCommodities
      | some commodities_list =>
        match resolve_commodity commodities_list commodity_name with
        | (none, _) => .error .commodityNotFound
        | (some ccode, cfound) =>
          if ccode.isEmpty then .error .commodityNotFound
          else
            match fetchCtry with
            | none => .error .upstreamCountries
            | some countries_list =>
              let resolved_countries := resolveCountries countries_list countries_requested
              if resolved_countries.all (fun rc => rc.code = none) then
                .error .noCountryResolved
              else if mode = codes "psd" then
                match year with
                | none => .error .missingParam
                | some year_i =>
                  match fetchYear ccode year_i with
                  | none => .error .upstreamData
                  | some rows =>
                    let rows_bs := filter_to_balance_sheet rows
                    .ok { commodityCode := ccode, commodityFound := cfound,
                          results := resolved_countries.map (psdSlot rows_bs),
                          resolved_countries := resolved_countries }
              else
                match y_from, y_to with
                | some f, some t =>
                  if t < f then .error .invertedRange
                  else if 40 < t - f then .error .oversizedRange
                  else
                    let metric := metric_canonical metric_in
                    .ok { commodityCode := ccode, commodityFound := cfound,
                          results := resolved_countries.map
                            (compareSeriesSlot fetchYear ccode metric f t),
                          resolved_countries := resolved_countries }
                | _, _ => .error .missingParam

/-! ## General helper lemmas -/

theorem isEmpty_false_of_ne_nil {α : Type} {l : List α} (h : l ≠ []) : l.isEmpty = false := by
  cases l with
  | nil => exact absurd rfl h
  | cons a t => rfl

theorem ne_nil_of_isEmpty_false {α : Type} {l : List α} (h : l.isEmpty = false) : l ≠ [] := by
  cases l with
  | nil => simp [List.isEmpty] at h
  | cons a t => simp

/-! ## Claim C6: a 5–8 digit input resolves to itself with no catalog scan -/

/-- **C6.** Any input that strips to a string of 5 to 8 decimal digits is
returned unchanged as the commodity code, for every catalog (the catalog
argument is universally quantified and never inspected, and the returned
name is `None`). -/
theorem claim_C6 (commodities_list : List CommodityEntry) (user_input : PyStr)
    (hdig : ∀ c ∈ pyStrip user_input, isDigitB c = true)
    (hlen5 : 5 ≤ (pyStrip user_input).length)
    (hlen8 : (pyStrip user_input).length ≤ 8) :
    resolve_commodity commodities_list user_input = (some (pyStrip user_input), none) := by
  have hpat : isCodePattern (pyStrip user_input) = true := by
    simp only [isCodePattern, Bool.and_eq_true, List.all_eq_true, decide_eq_true_eq]
    exact ⟨⟨hdig, hlen5⟩, hlen8⟩
  simp only [resolve_commodity, hpat, if_true]

/-- Witness for C6: `"440000"` resolves to itself on the empty catalog. -/
theorem claim_C6_witness :
    resolve_commodity [] (codes "440000") = (some (pyStrip (codes "440000")), none) :=
  claim_C6 [] (codes "440000") (by decide) (by decide) (by decide)

/-! ## Claims C2 and C8: the bounded year-data cache -/

/-- The 51 distinct keys of the C2 experiment. -/
def c2Key (i : Nat) : YKey := (codes "C", (i : Int))

/-- Insert 51 distinct keys into an initially empty cache through
`fetch_year_data` with an always-successful upstream oracle. -/
def c2Cache : YearCache :=
  (List.range 51).foldl (fun c i => (fetch_year_data (fun _ => some []) c (c2Key i)).2) []

/-- Unfolding: cache hit. -/
theorem fetch_year_data_hit {oracle : YKey → Option (List Row)} {c : YearCache} {k : YKey}
    {rows : List Row} (h : cacheLookup c k = some rows) :
    fetch_year_data oracle c k = (some rows, c) := by
  unfold fetch_year_data
  rw [h]

/-- Unfolding: cache miss, failed upstream fetch. -/
theorem fetch_year_data_missfail {oracle : YKey → Option (List Row)} {c : YearCache} {k : YKey}
    (hmiss : cacheLookup c k = none) (ho : oracle k = none) :
    fetch_year_data oracle c k = (none, c) := by
  unfold fetch_year_data
  rw [hmiss, ho]

/-- Unfolding: cache miss, successful upstream fetch. -/
theorem fetch_year_data_misshit {oracle : YKey → Option (List Row)} {c : YearCache} {k : YKey}
    {rows : List Row} (hmiss : cacheLookup c k = none) (ho : oracle k = some rows) :
    fetch_year_data oracle c k
      = (some rows,
        if 50 < (c ++ [(k, rows)]).length then (c ++ [(k, rows)]).tail else c ++ [(k, rows)]) := by
  unfold fetch_year_data
  rw [hmiss, ho]

set_option maxRecDepth 20000 in
/-- **C2.** (i) A `fetch_year_data` call never grows the cache past 50
entries; (ii) when a fresh key is stored into a full (50-entry) cache the
single oldest-inserted entry (the head) is evicted and the new key appended
(strict insertion-order FIFO); (iii) inserting 51 distinct keys into an
initially empty cache leaves exactly the 50 most-recently-inserted keys, in
insertion order, with the first-inserted key absent. -/
theorem claim_C2 :
    (∀ (oracle : YKey → Option (List Row)) (c : YearCache) (k : YKey),
      c.length ≤ 50 → ((fetch_year_data oracle c k).2).length ≤ 50)
    ∧ (∀ (oracle : YKey → Option (List Row)) (c : YearCache) (k : YKey) (rows : List Row),
      c.length = 50 → cacheLookup c k = none → oracle k = some rows →
      (fetch_year_data oracle c k).2 = c.tail ++ [(k, rows)])
    ∧ (c2Cache.length = 50
      ∧ cacheLookup c2Cache (c2Key 0) = none
      ∧ c2Cache.map Prod.fst = ((List.range 51).map c2Key).tail) := by
  refine ⟨?_, ?_, by decide, by decide, by decide⟩
  · intro oracle c k hle
    cases h : cacheLookup c k with
    | some rows => rw [fetch_year_data_hit h]; exact hle
    | none =>
      cases ho : oracle k with
      | none => rw [fetch_year_data_missfail h ho]; exact hle
      | some rows =>
        rw [fetch_year_data_misshit h ho]
        by_cases h51 : 50 < (c ++ [(k, rows)]).length
        · rw [if_pos h51]
          simp only [List.length_tail, List.length_append, List.length_cons, List.length_nil]
          omega
        · rw [if_neg h51]
          simp only [List.length_append, List.length_cons, List.length_nil] at h51 ⊢
          omega
  · intro oracle c k rows hlen hmiss ho
    rw [fetch_year_data_misshit hmiss ho]
    have h51 : 50 < (c ++ [(k, rows)]).length := by
      simp [List.length_append, hlen]
    rw [if_pos h51]
    cases c with
    | nil => simp at hlen
    | cons x c2 => simp

set_option maxRecDepth 20000 in
/-- Witness for C2: the size bound applied to the empty cache, and the FIFO
eviction applied to the concrete full cache of the 51-key experiment. -/
theorem claim_C2_witness :
    ((fetch_year_data (fun _ => none) [] (codes "x", 0)).2).length ≤ 50
    ∧ (fetch_year_data (fun _ => some []) c2Cache (c2Key 51)).2
      = c2Cache.tail ++ [(c2Key 51, [])] :=
  ⟨claim_C2.1 (fun _ => none) [] (codes "x", 0) (by decide),
   claim_C2.2.1 (fun _ => some []) c2Cache (c2Key 51) [] (by decide) (by decide) rfl⟩

/-- **C8.** (i) On a cache hit `fetch_year_data` returns the stored rows
and leaves the cache unchanged, for every oracle (so no upstream call can
influence the result); (ii) on a failed upstream fetch it returns an error
and leaves the cache unchanged (the failure is not stored); (iii) hence a
subsequent call for the same key consults the upstream oracle again and
succeeds when that oracle now succeeds. -/
theorem claim_C8 :
    (∀ (oracle : YKey → Option (List Row)) (c : YearCache) (k : YKey) (rows : List Row),
      cacheLookup c k = some rows → fetch_year_data oracle c k = (some rows, c))
    ∧ (∀ (oracle : YKey → Option (List Row)) (c : YearCache) (k : YKey),
      cacheLookup c k = none → oracle k = none → fetch_year_data oracle c k = (none, c))
    ∧ (∀ (oracle oracle2 : YKey → Option (List Row)) (c : YearCache) (k : YKey) (rows : List Row),
      cacheLookup c k = none → oracle k = none → oracle2 k = some rows →
      (fetch_year_data oracle2 ((fetch_year_data oracle c k).2) k).1 = some rows) := by
  refine ⟨?_, ?_, ?_⟩
  · intro oracle c k rows h
    exact fetch_year_data_hit h
  · intro oracle c k hmiss ho
    exact fetch_year_data_missfail hmiss ho
  · intro oracle oracle2 c k rows hmiss ho ho2
    rw [fetch_year_data_missfail hmiss ho]
    rw [fetch_year_data_misshit hmiss ho2]

/-- Witness for C8: hit, failure and retry on concrete caches. -/
theorem claim_C8_witness :
    fetch_year_data (fun _ => none) [((codes "c", 7), [])] (codes "c", 7)
      = (some [], [((codes "c", 7), [])])
    ∧ fetch_year_data (fun _ => none) [] (codes "c", 7) = (none, [])
    ∧ (fetch_year_data (fun _ => some [])
        ((fetch_year_data (fun _ => none) [] (codes "c", 7)).2) (codes "c", 7)).1 = some [] :=
  ⟨claim_C8.1 (fun _ => none) [((codes "c", 7), [])] (codes "c", 7) [] (by decide),
   claim_C8.2.1 (fun _ => none) [] (codes "c", 7) (by decide) rfl,
   claim_C8.2.2 (fun _ => none) (fun _ => some []) [] (codes "c", 7) [] (by decide) rfl rfl⟩

/-! ## Claim C10: `pick_world_code` is one lowercase lookup -/

/-- The scan of `resolve_country` can only return nothing at all or a pair
of non-empty code and name. -/
theorem countryScan_shape (countries_list : List CountryEntry) (t_norm t_clean : PyStr) :
    countryScan countries_list t_norm t_clean = (none, none)
    ∨ ∃ c n, countryScan countries_list t_norm t_clean = (some c, some n) ∧ c ≠ [] := by
  induction countries_list with
  | nil => left; rfl
  | cons it rest ih =>
    unfold countryScan
    dsimp only
    split
    · exact ih
    · next hguard =>
      split
      · right
        refine ⟨_, _, rfl, ?_⟩
        simp only [Bool.or_eq_true] at hguard
        push_neg at hguard
        exact ne_nil_of_isEmpty_false (by simpa using hguard.2)
      · exact ih

/-- **C10.** `pick_world_code` coincides with a single `resolve_country`
lookup of `"world"`: the three tried spellings `"World"`, `"world"`,
`"WORLD"` normalize identically, so all three attempts are the same scan
and the later attempts can never succeed when the first fails. -/
theorem claim_C10 (countries_list : List CountryEntry) :
    pick_world_code countries_list = resolve_country countries_list (codes "world")
    ∧ resolve_country countries_list (codes "World")
      = resolve_country countries_list (codes "world")
    ∧ resolve_country countries_list (codes "WORLD")
      = resolve_country countries_list (codes "world") := by
  have e1 : resolve_country countries_list (codes "World")
      = countryScan countries_list (codes "world") (codes "world") := rfl
  have e2 : resolve_country countries_list (codes "world")
      = countryScan countries_list (codes "world") (codes "world") := rfl
  have e3 : resolve_country countries_list (codes "WORLD")
      = countryScan countries_list (codes "world") (codes "world") := rfl
  refine ⟨?_, by rw [e1, e2], by rw [e3, e2]⟩
  unfold pick_world_code
  rw [e1, e2, e3]
  rcases countryScan_shape countries_list (codes "world") (codes "world") with h | ⟨c, n, h, hc⟩
  · rw [h]; rfl
  · rw [h]
    have : pyTruthy (some c, some n).1 = true := by
      simp [pyTruthy, isEmpty_false_of_ne_nil hc]
    rw [if_pos this]

/-! ## Claim C9: `normalize` is idempotent -/

theorem pyToLower_idem (c : Nat) : pyToLower (pyToLower c) = pyToLower c := by
  by_cases h : 65 ≤ c ∧ c ≤ 90
  · simp only [pyToLower, if_pos h]
    rw [if_neg]
    omega
  · simp only [pyToLower, if_neg h]

theorem pyToLower_32 : pyToLower 32 = 32 := rfl

theorem mem_of_mem_dropWhile {p : Nat → Bool} {c : Nat} :
    ∀ {l : PyStr}, c ∈ l.dropWhile p → c ∈ l := by
  intro l
  induction l with
  | nil => simp
  | cons a t ih =>
    rw [List.dropWhile_cons]
    split
    · exact fun h => List.mem_cons_of_mem a (ih h)
    · exact fun h => h

theorem mem_of_mem_trimRight {c : Nat} {s : PyStr} (h : c ∈ trimRight s) : c ∈ s := by
  unfold trimRight at h
  have h2 := (List.mem_reverse).1 h
  exact (List.mem_reverse).1 (mem_of_mem_dropWhile h2)

theorem mem_of_mem_pyStrip {c : Nat} {s : PyStr} (h : c ∈ pyStrip s) : c ∈ s :=
  mem_of_mem_dropWhile (mem_of_mem_trimRight h)

theorem mem_collapseWs {c : Nat} : ∀ {t : PyStr}, c ∈ collapseWs t → c ∈ t ∨ c = 32
  | [], h => by simp [collapseWs] at h
  | [a], h => by
    simp only [collapseWs, List.mem_singleton] at h
    by_cases ha : isSpace a = true
    · rw [if_pos ha] at h; right; exact h
    · rw [if_neg ha] at h; left; simp [h]
  | a :: b :: rest, h => by
    unfold collapseWs at h
    split at h
    · rcases mem_collapseWs h with h2 | h2
      · exact Or.inl (List.mem_cons_of_mem a h2)
      · exact Or.inr h2
    · rcases List.mem_cons.1 h with h2 | h2
      · by_cases ha : isSpace a = true
        · rw [if_pos ha] at h2; right; exact h2
        · rw [if_neg ha] at h2; left; simp [h2]
      · rcases mem_collapseWs h2 with h3 | h3
        · exact Or.inl (List.mem_cons_of_mem a h3)
        · exact Or.inr h3

theorem pyToLower_fixed_of_mem_normalize {c : Nat} {s : PyStr} (h : c ∈ normalize s) :
    pyToLower c = c := by
  unfold normalize at h
  rcases mem_collapseWs h with h2 | rfl
  · rcases List.mem_map.1 (mem_of_mem_pyStrip h2) with ⟨d, _, rfl⟩
    exact pyToLower_idem d
  · exact pyToLower_32

theorem map_id_of_fixed {f : Nat → Nat} : ∀ {l : PyStr}, (∀ c ∈ l, f c = c) → l.map f = l
  | [], _ => rfl
  | a :: t, h => by
    rw [List.map_cons, h a (List.mem_cons_self a t),
      map_id_of_fixed (fun c hc => h c (List.mem_cons_of_mem a hc))]

/-- The shape invariant of `collapseWs` output: every whitespace character
is a plain space and no two adjacent characters are both whitespace. -/
def wsOk : PyStr → Bool
  | [] => true
  | [c] => !isSpace c || c == 32
  | a :: b :: rest => (!isSpace a || (a == 32 && !isSpace b)) && wsOk (b :: rest)

theorem collapseWs_cons_not_space {a : Nat} (t : PyStr) (h : isSpace a = false) :
    collapseWs (a :: t) = a :: collapseWs t := by
  cases t with
  | nil => simp [collapseWs, h]
  | cons b r => simp [collapseWs, h]

theorem wsOk_cons_not_space {a : Nat} {l : PyStr} (ha : isSpace a = false)
    (hl : wsOk l = true) : wsOk (a :: l) = true := by
  cases l with
  | nil => simp [wsOk, ha]
  | cons b r => simp [wsOk, ha, hl]

theorem wsOk_collapseWs : ∀ t : PyStr, wsOk (collapseWs t) = true
  | [] => rfl
  | [c] => by
    by_cases h : isSpace c = true <;> simp [collapseWs, wsOk, h]
  | a :: b :: rest => by
    by_cases ha : isSpace a = true
    · by_cases hb : isSpace b = true
      · rw [show collapseWs (a :: b :: rest) = collapseWs (b :: rest) by
          simp [collapseWs, ha, hb]]
        exact wsOk_collapseWs (b :: rest)
      · have hbf : isSpace b = false := by simpa using hb
        have h1 : collapseWs (a :: b :: rest) = 32 :: collapseWs (b :: rest) := by
          simp [collapseWs, ha, hbf]
        have h2 : wsOk (b :: collapseWs rest) = true := by
          rw [← collapseWs_cons_not_space rest hbf]
          exact wsOk_collapseWs (b :: rest)
        rw [h1, collapseWs_cons_not_space rest hbf]
        simp [wsOk, hbf, h2]
    · rw [collapseWs_cons_not_space (b :: rest)
        (by simpa using ha)]
      exact wsOk_cons_not_space (by simpa using ha) (wsOk_collapseWs (b :: rest))

theorem collapseWs_of_wsOk : ∀ t : PyStr, wsOk t = true → collapseWs t = t
  | [], _ => rfl
  | [c], h => by
    by_cases hc : isSpace c = true
    · have hc32 : c = 32 := by simpa [wsOk, hc] using h
      simp [collapseWs, hc, hc32]
    · simp [collapseWs, hc]
  | a :: b :: rest, h => by
    simp only [wsOk, Bool.and_eq_true] at h
    obtain ⟨h1, h2⟩ := h
    by_cases ha : isSpace a = true
    · have ha32 : a = 32 ∧ isSpace b = false := by
        simpa [ha, Bool.and_eq_true, beq_iff_eq, Bool.not_eq_true'] using h1
      obtain ⟨hae, hb⟩ := ha32
      have hcond : (isSpace a && isSpace b) = false := by simp [hb]
      rw [show collapseWs (a :: b :: rest)
          = (if isSpace a then 32 else a) :: collapseWs (b :: rest) by
        simp [collapseWs, hcond]]
      rw [if_pos ha, collapseWs_of_wsOk (b :: rest) h2, hae]
    · rw [collapseWs_cons_not_space (b :: rest) (by simpa using ha),
        collapseWs_of_wsOk (b :: rest) h2]

theorem dropWhile_head_false {p : Nat → Bool} :
    ∀ {l : PyStr} {c : Nat} {t : PyStr}, l.dropWhile p = c :: t → p c = false := by
  intro l
  induction l with
  | nil => intro c t h; simp at h
  | cons a r ih =>
    intro c t h
    rw [List.dropWhile_cons] at h
    split at h
    · exact ih h
    · next hp =>
      injection h with h1 _
      rw [← h1]
      simpa using hp

theorem exists_append_dropWhile (p : Nat → Bool) :
    ∀ l : PyStr, ∃ l1, l = l1 ++ l.dropWhile p
  | [] => ⟨[], rfl⟩
  | a :: t => by
    rw [List.dropWhile_cons]
    split
    · obtain ⟨l1, h⟩ := exists_append_dropWhile p t
      exact ⟨a :: l1, by rw [List.cons_append, ← h]⟩
    · exact ⟨[], rfl⟩

theorem trimRight_prefix (s : PyStr) : ∃ t, s = trimRight s ++ t := by
  obtain ⟨l1, h⟩ := exists_append_dropWhile isSpace s.reverse
  refine ⟨l1.reverse, ?_⟩
  unfold trimRight
  have h2 := congrArg List.reverse h
  rw [List.reverse_append] at h2
  simpa using h2

theorem pyStrip_head_not_space {s : PyStr} {c : Nat} {t : PyStr}
    (h : pyStrip s = c :: t) : isSpace c = false := by
  unfold pyStrip at h
  obtain ⟨t2, h2⟩ := trimRight_prefix (trimLeft s)
  rw [h, List.cons_append] at h2
  exact dropWhile_head_false (p := isSpace) (l := s) h2

theorem reverse_trimRight (s : PyStr) :
    (trimRight s).reverse = s.reverse.dropWhile isSpace := by
  unfold trimRight
  rw [List.reverse_reverse]

theorem pyStrip_getLast_not_space {s : PyStr} {c : Nat}
    (h : (pyStrip s).getLast? = some c) : isSpace c = false := by
  rw [← List.head?_reverse] at h
  unfold pyStrip at h
  rw [reverse_trimRight] at h
  cases hd : (trimLeft s).reverse.dropWhile isSpace with
  | nil => rw [hd] at h; simp at h
  | cons d r =>
    rw [hd] at h
    simp only [List.head?_cons, Option.some.injEq] at h
    subst h
    exact dropWhile_head_false hd

theorem collapseWs_ne_nil : ∀ {t : PyStr}, t ≠ [] → collapseWs t ≠ []
  | [], h => absurd rfl h
  | [c], _ => by simp [collapseWs]
  | a :: b :: rest, _ => by
    unfold collapseWs
    split
    · exact collapseWs_ne_nil (by simp)
    · simp

theorem collapseWs_getLast : ∀ {t : PyStr} {c : Nat}, t.getLast? = some c →
    isSpace c = false → (collapseWs t).getLast? = some c
  | [], c, h, _ => by simp at h
  | [a], c, h, hc => by
    simp only [List.getLast?_singleton, Option.some.injEq] at h
    subst h
    simp [collapseWs, hc]
  | a :: b :: rest, c, h, hc => by
    rw [List.getLast?_cons_cons] at h
    unfold collapseWs
    split
    · exact collapseWs_getLast h hc
    · have hne := collapseWs_ne_nil (t := b :: rest) (by simp)
      cases hl : collapseWs (b :: rest) with
      | nil => exact absurd hl hne
      | cons x l2 =>
        rw [List.getLast?_cons_cons, ← hl]
        exact collapseWs_getLast h hc

theorem getLast?_none_eq_nil {l : PyStr} (h : l.getLast? = none) : l = [] := by
  rw [← List.head?_reverse] at h
  have h2 := List.head?_eq_none_iff.1 h
  simpa using h2

theorem trimLeft_eq_self {s : PyStr}
    (h : ∀ c t, s = c :: t → isSpace c = false) : trimLeft s = s := by
  cases s with
  | nil => rfl
  | cons a t =>
    have hf := h a t rfl
    simp [trimLeft, List.dropWhile_cons, hf]

theorem trimRight_eq_self {s : PyStr} {c : Nat}
    (h : s.getLast? = some c) (hc : isSpace c = false) : trimRight s = s := by
  unfold trimRight
  rw [← List.head?_reverse] at h
  cases hr : s.reverse with
  | nil => rw [hr] at h; simp at h
  | cons d r =>
    rw [hr] at h
    simp only [List.head?_cons, Option.some.injEq] at h
    subst h
    have hkeep : (d :: r).dropWhile isSpace = d :: r := by
      simp [List.dropWhile_cons, hc]
    rw [hkeep, ← hr, List.reverse_reverse]

/-- **C9.** `normalize` is idempotent: `normalize (normalize s) =
normalize s` for every string, and it is total, mapping the empty string
to the empty string. -/
theorem claim_C9 :
    (∀ s : PyStr, normalize (normalize s) = normalize s) ∧ normalize [] = [] := by
  refine ⟨?_, rfl⟩
  intro s
  have hmap : (normalize s).map pyToLower = normalize s :=
    map_id_of_fixed (fun c hc => pyToLower_fixed_of_mem_normalize hc)
  have hws : wsOk (normalize s) = true := wsOk_collapseWs _
  have hleft : trimLeft (normalize s) = normalize s := by
    apply trimLeft_eq_self
    intro c t h
    unfold normalize at h
    cases hu : pyStrip (s.map pyToLower) with
    | nil => rw [hu] at h; simp [collapseWs] at h
    | cons d u2 =>
      have hd : isSpace d = false := pyStrip_head_not_space hu
      rw [hu, collapseWs_cons_not_space u2 hd] at h
      injection h with h1 _
      rw [← h1]
      exact hd
  have hright : trimRight (normalize s) = normalize s := by
    cases hl : (normalize s).getLast? with
    | none => rw [getLast?_none_eq_nil hl]; rfl
    | some c =>
      refine trimRight_eq_self hl ?_
      have hl2 : (collapseWs (pyStrip (s.map pyToLower))).getLast? = some c := hl
      cases hg : (pyStrip (s.map pyToLower)).getLast? with
      | none =>
        rw [getLast?_none_eq_nil hg] at hl2
        simp [collapseWs] at hl2
      | some e =>
        have he : isSpace e = false := pyStrip_getLast_not_space hg
        have h3 := collapseWs_getLast hg he
        rw [h3, Option.some.injEq] at hl2
        rw [← hl2]
        exact he
  show collapseWs (pyStrip ((normalize s).map pyToLower)) = normalize s
  rw [hmap]
  unfold pyStrip
  rw [hleft, hright]
  exact collapseWs_of_wsOk _ hws

/-! ## Claim C4: the `/top` ranking -/

theorem insertDescBy_length {α : Type} (key : α → Int) (x : α) :
    ∀ l : List α, (insertDescBy key x l).length = l.length + 1
  | [] => rfl
  | y :: ys => by
    unfold insertDescBy
    split
    · simp [insertDescBy_length key x ys]
    · simp

theorem sortDescBy_length_aux {α : Type} (key : α → Int) :
    ∀ (l acc : List α),
      (l.foldl (fun acc x => insertDescBy key x acc) acc).length = acc.length + l.length
  | [], acc => by simp
  | x :: t, acc => by
    rw [List.foldl_cons, sortDescBy_length_aux key t _, insertDescBy_length]
    simp only [List.length_cons]
    omega

theorem sortDescBy_length {α : Type} (key : α → Int) (l : List α) :
    (sortDescBy key l).length = l.length := by
  unfold sortDescBy
  rw [sortDescBy_length_aux]
  simp

theorem mem_insertDescBy {α : Type} (key : α → Int) (x a : α) :
    ∀ l : List α, a ∈ insertDescBy key x l ↔ a = x ∨ a ∈ l
  | [] => by simp [insertDescBy]
  | y :: ys => by
    unfold insertDescBy
    split
    · simp only [List.mem_cons, mem_insertDescBy key x a ys]
      try tauto
    · simp only [List.mem_cons]
      try tauto

theorem insertDescBy_pairwise {α : Type} (key : α → Int) (x : α) :
    ∀ {l : List α}, l.Pairwise (fun a b => key b ≤ key a) →
      (insertDescBy key x l).Pairwise (fun a b => key b ≤ key a)
  | [], _ => by simp [insertDescBy]
  | y :: ys, h => by
    unfold insertDescBy
    rw [List.pairwise_cons] at h
    obtain ⟨hy, hys⟩ := h
    split
    · next hle =>
      rw [List.pairwise_cons]
      refine ⟨?_, insertDescBy_pairwise key x hys⟩
      intro b hb
      rcases (mem_insertDescBy key x b ys).1 hb with rfl | hbm
      · exact hle
      · exact hy b hbm
    · next hgt =>
      push_neg at hgt
      rw [List.pairwise_cons]
      refine ⟨?_, List.pairwise_cons.2 ⟨hy, hys⟩⟩
      intro b hb
      rcases List.mem_cons.1 hb with rfl | hbm
      · exact le_of_lt hgt
      · exact le_trans (hy b hbm) (le_of_lt hgt)

theorem sortDescBy_pairwise_aux {α : Type} (key : α → Int) :
    ∀ (l acc : List α), acc.Pairwise (fun a b => key b ≤ key a) →
      (l.foldl (fun acc x => insertDescBy key x acc) acc).Pairwise (fun a b => key b ≤ key a)
  | [], _, h => h
  | x :: t, acc, h => by
    rw [List.foldl_cons]
    exact sortDescBy_pairwise_aux key t _ (insertDescBy_pairwise key x h)

theorem sortDescBy_pairwise {α : Type} (key : α → Int) (l : List α) :
    (sortDescBy key l).Pairwise (fun a b => key b ≤ key a) :=
  sortDescBy_pairwise_aux key l [] (by simp)

theorem mem_sortDescBy_aux {α : Type} (key : α → Int) :
    ∀ (l acc : List α) (a : α),
      a ∈ l.foldl (fun acc x => insertDescBy key x acc) acc ↔ a ∈ acc ∨ a ∈ l
  | [], acc, a => by simp
  | x :: t, acc, a => by
    rw [List.foldl_cons, mem_sortDescBy_aux key t _ a, mem_insertDescBy]
    simp only [List.mem_cons]
    tauto

theorem mem_sortDescBy {α : Type} (key : α → Int) (l : List α) (a : α) :
    a ∈ sortDescBy key l ↔ a ∈ l := by
  unfold sortDescBy
  rw [mem_sortDescBy_aux]
  simp

/-- The stability order on index-tagged elements: strictly larger key, or
equal key and strictly smaller original index. -/
def lexDesc {α : Type} (key : α → Int) (a b : Nat × α) : Prop :=
  key b.2 < key a.2 ∨ (key a.2 = key b.2 ∧ a.1 < b.1)

theorem insert_enum_stable {α : Type} (key : α → Int) (x : Nat × α) :
    ∀ {acc : List (Nat × α)}, acc.Pairwise (lexDesc key) → (∀ p ∈ acc, p.1 < x.1) →
      (insertDescBy (fun p => key p.2) x acc).Pairwise (lexDesc key)
  | [], _, _ => by simp [insertDescBy]
  | y :: ys, h, hidx => by
    unfold insertDescBy
    rw [List.pairwise_cons] at h
    obtain ⟨hy, hys⟩ := h
    split
    · next hle =>
      rw [List.pairwise_cons]
      refine ⟨?_, insert_enum_stable key x hys
        (fun p hp => hidx p (List.mem_cons_of_mem y hp))⟩
      intro b hb
      rcases (mem_insertDescBy _ x b ys).1 hb with rfl | hbm
      · rcases lt_or_eq_of_le hle with hlt | heq
        · exact Or.inl hlt
        · exact Or.inr ⟨heq.symm, hidx y (List.mem_cons_self y ys)⟩
      · exact hy b hbm
    · next hgt =>
      push_neg at hgt
      rw [List.pairwise_cons]
      refine ⟨?_, List.pairwise_cons.2 ⟨hy, hys⟩⟩
      intro b hb
      rcases List.mem_cons.1 hb with rfl | hbm
      · exact Or.inl hgt
      · rcases hy b hbm with h1 | ⟨h1, _⟩
        · exact Or.inl (lt_trans h1 hgt)
        · exact Or.inl (h1 ▸ hgt)

theorem enum_fold_stable {α : Type} (key : α → Int) :
    ∀ (l : List α) (n : Nat) (acc : List (Nat × α)),
      acc.Pairwise (lexDesc key) → (∀ p ∈ acc, p.1 < n) →
      ((List.enumFrom n l).foldl
        (fun acc x => insertDescBy (fun p => key p.2) x acc) acc).Pairwise (lexDesc key)
  | [], _, _, h, _ => h
  | x :: t, n, acc, h, hidx => by
    rw [List.enumFrom_cons, List.foldl_cons]
    refine enum_fold_stable key t (n + 1) _ (insert_enum_stable key (n, x) h hidx) ?_
    intro p hp
    rcases (mem_insertDescBy _ (n, x) p acc).1 hp with rfl | hbm
    · simp
    · exact Nat.lt_succ_of_lt (hidx p hbm)

theorem map_snd_insertDescBy {α : Type} (key : α → Int) (q : Nat × α) :
    ∀ acc : List (Nat × α),
      (insertDescBy (fun p => key p.2) q acc).map Prod.snd
        = insertDescBy key q.2 (acc.map Prod.snd)
  | [] => rfl
  | y :: ys => by
    simp only [insertDescBy, List.map_cons]
    by_cases hle : key q.2 ≤ key y.2
    · rw [if_pos hle, if_pos hle, List.map_cons, map_snd_insertDescBy key q ys]
    · rw [if_neg hle, if_neg hle]
      simp

theorem map_snd_enum_fold {α : Type} (key : α → Int) :
    ∀ (l : List α) (n : Nat) (acc : List (Nat × α)),
      ((List.enumFrom n l).foldl
          (fun acc x => insertDescBy (fun p => key p.2) x acc) acc).map Prod.snd
        = l.foldl (fun acc x => insertDescBy key x acc) (acc.map Prod.snd)
  | [], _, _ => rfl
  | x :: t, n, acc => by
    rw [List.enumFrom_cons, List.foldl_cons, List.foldl_cons,
      map_snd_enum_fold key t (n + 1) _, map_snd_insertDescBy]

/-- The `/top` stable sort applied to index-tagged qualifying rows: the
witness of ties keeping original row order. -/
def stableSortEnum (l : List TopRow) : List (Nat × TopRow) :=
  sortDescBy (fun p => p.2.value) l.enum

theorem stableSortEnum_pairwise (l : List TopRow) :
    (stableSortEnum l).Pairwise (lexDesc TopRow.value) := by
  unfold stableSortEnum sortDescBy
  rw [show l.enum = List.enumFrom 0 l from rfl]
  exact enum_fold_stable TopRow.value l 0 [] (by simp) (by simp)

theorem stableSortEnum_map_snd (l : List TopRow) :
    (stableSortEnum l).map Prod.snd = sortDescBy TopRow.value l := by
  unfold stableSortEnum sortDescBy
  rw [show l.enum = List.enumFrom 0 l from rfl]
  rw [map_snd_enum_fold]
  rfl

theorem mem_qualifyTopRows {rows : List Row} {metric : PyStr} {a : TopRow}
    (h : a ∈ qualifyTopRows rows metric) :
    ∃ r ∈ rows, rowAttr r = metric ∧ r.Value = some a.value
      ∧ normalize (rowCName r) ≠ codes "world"
      ∧ a.countryCode = rowCCode r ∧ a.countryName = rowCName r := by
  unfold qualifyTopRows at h
  rcases List.mem_filterMap.1 h with ⟨r, hr, hf⟩
  refine ⟨r, hr, ?_⟩
  split at hf
  · exact absurd hf (by simp)
  · next h1 =>
    push_neg at h1
    split at hf
    · exact absurd hf (by simp)
    · next v hv =>
      split at hf
      · exact absurd hf (by simp)
      · next h2 =>
        injection hf with hf
        subst hf
        exact ⟨h1, by rw [hv], h2, rfl, rfl⟩

/-- **C4.** For an accepted `/top` request (successful catalog fetch,
resolved commodity, successful year fetch, at least one qualifying row) the
payload ranking is the clamped-`n` prefix of the stable descending sort of
the qualifying rows; `n` is clamped into `[1, 60]`; the ranking has exactly
`min (clamped n) (number of qualifying rows)` entries, is descending in
value, contains only rows of the requested attribute with a numeric value
and a non-"world" country, and ties keep the original row order (the
index-tagged sort is strictly ordered by value-then-original-index and
projects onto the payload sort). -/
theorem claim_C4
    (fetchComm : Option (List CommodityEntry)) (fetchYear : PyStr → Int → Option (List Row))
    (commodity_name metric_in : PyStr) (year n : Int)
    (commodities_list : List CommodityEntry) (ccode : PyStr) (cfound : Option PyStr)
    (rows : List Row)
    (hne : commodity_name ≠ [])
    (hcomm : fetchComm = some commodities_list)
    (hres : resolve_commodity commodities_list commodity_name = (some ccode, cfound))
    (hcc : ccode ≠ [])
    (hrows : fetchYear ccode year = some rows)
    (hq : qualifyTopRows rows (metric_canonical metric_in) ≠ []) :
    topHandler fetchComm fetchYear commodity_name metric_in year n
      = .ok { commodityCode := ccode, commodityFound := cfound,
              metricUsed := metric_canonical metric_in, nUsed := clampN n,
              top := (sortDescBy TopRow.value
                (qualifyTopRows rows (metric_canonical metric_in))).take (clampN n) }
    ∧ 1 ≤ clampN n ∧ clampN n ≤ 60
    ∧ ((sortDescBy TopRow.value
        (qualifyTopRows rows (metric_canonical metric_in))).take (clampN n)).length
      = min (clampN n) (qualifyTopRows rows (metric_canonical metric_in)).length
    ∧ ((sortDescBy TopRow.value
        (qualifyTopRows rows (metric_canonical metric_in))).take (clampN n)).Pairwise
        (fun a b => b.value ≤ a.value)
    ∧ (∀ a ∈ (sortDescBy TopRow.value
        (qualifyTopRows rows (metric_canonical metric_in))).take (clampN n),
        ∃ r ∈ rows, rowAttr r = metric_canonical metric_in ∧ r.Value = some a.value
          ∧ normalize (rowCName r) ≠ codes "world"
          ∧ a.countryCode = rowCCode r ∧ a.countryName = rowCName r)
    ∧ (stableSortEnum (qualifyTopRows rows (metric_canonical metric_in))).Pairwise
        (lexDesc TopRow.value)
    ∧ (stableSortEnum (qualifyTopRows rows (metric_canonical metric_in))).map Prod.snd
      = sortDescBy TopRow.value (qualifyTopRows rows (metric_canonical metric_in)) := by
  refine ⟨?_, ?_, ?_, ?_, ?_, ?_, stableSortEnum_pairwise _, stableSortEnum_map_snd _⟩
  · simp only [topHandler, isEmpty_false_of_ne_nil hne, Bool.false_eq_true, if_false,
      hcomm, hres, isEmpty_false_of_ne_nil hcc, hrows, isEmpty_false_of_ne_nil hq]
  · unfold clampN
    omega
  · unfold clampN
    omega
  · rw [List.length_take, sortDescBy_length]
  · exact (sortDescBy_pairwise TopRow.value _).sublist (List.take_sublist _ _)
  · intro a ha
    have ham : a ∈ sortDescBy TopRow.value (qualifyTopRows rows (metric_canonical metric_in)) :=
      (List.take_sublist _ _).subset ha
    exact mem_qualifyTopRows ((mem_sortDescBy _ _ _).1 ham)

/-- Concrete `/top` fixture row. -/
def c4Row (cc cn : String) (v : Int) : Row :=
  { AttributeDescription := some (codes "Production"), Value := some v,
    CountryName := some (codes cn), CountryCode := some (codes cc) }

/-- Concrete `/top` fixture: 8 qualifying countries plus one "World" row
and one non-numeric row. -/
def c4Rows : List Row :=
  [c4Row "BR" "Brazil" 100, c4Row "US" "United States" 300, c4Row "AR" "Argentina" 50,
   c4Row "CN" "China" 300, c4Row "IN" "India" 20, c4Row "EU" "European Union" 80,
   c4Row "PY" "Paraguay" 10, c4Row "UY" "Uruguay" 5,
   { AttributeDescription := some (codes "Production"), Value := some 900,
     CountryName := some (codes "World"), CountryCode := some (codes "00") },
   { AttributeDescription := some (codes "Production"), Value := none,
     CountryName := some (codes "Canada"), CountryCode := some (codes "CA") }]

/-- Concrete commodity catalog for the `/top` fixture. -/
def c4Comm : List CommodityEntry :=
  [{ CommodityName := some (codes "Corn"), CommodityCode := some (codes "0440000") }]

/-- Witness for C4: `n = 5` over the 8-qualifying-country fixture. -/
theorem claim_C4_witness :
    topHandler (some c4Comm) (fun _ _ => some c4Rows) (codes "milho") (codes "producao") 2024 5
      = .ok { commodityCode := codes "0440000", commodityFound := some (codes "Corn"),
              metricUsed := metric_canonical (codes "producao"), nUsed := clampN 5,
              top := (sortDescBy TopRow.value
                (qualifyTopRows c4Rows (metric_canonical (codes "producao")))).take (clampN 5) }
    ∧ ((sortDescBy TopRow.value
        (qualifyTopRows c4Rows (metric_canonical (codes "producao")))).take (clampN 5)).length
      = min (clampN 5) (qualifyTopRows c4Rows (metric_canonical (codes "producao"))).length := by
  have h := claim_C4 (some c4Comm) (fun _ _ => some c4Rows) (codes "milho") (codes "producao")
    2024 5 c4Comm (codes "0440000") (some (codes "Corn")) c4Rows
    (by decide) rfl (by decide) (by decide) rfl (by decide)
  exact ⟨h.1, h.2.2.2.1⟩

/-! ## Claim C1: the `/series` loop emits one point per requested year -/

theorem seriesPointFor_year (fetchYear : PyStr → Int → Option (List Row)) (ccode metric : PyStr)
    (is_world : Bool) (world_code country_code : Option PyStr) (y : Int) :
    (seriesPointFor fetchYear ccode metric is_world world_code country_code y).year = y := by
  unfold seriesPointFor
  split
  · rfl
  · dsimp only
    split
    · rfl
    · split
      · rfl
      · split
        · rfl
        · split <;> rfl

theorem seriesPointFor_fetchfail {fetchYear : PyStr → Int → Option (List Row)}
    {ccode metric : PyStr} {is_world : Bool} {world_code country_code : Option PyStr} {y : Int}
    (h : fetchYear ccode y = none) :
    seriesPointFor fetchYear ccode metric is_world world_code country_code y
      = { year := y, value := none, note := some (codes "fetch_error") } := by
  unfold seriesPointFor
  rw [h]

theorem seriesPointFor_noattr {fetchYear : PyStr → Int → Option (List Row)}
    {ccode metric : PyStr} {is_world : Bool} {world_code country_code : Option PyStr} {y : Int}
    {rows : List Row} (h : fetchYear ccode y = some rows)
    (h2 : ∀ r ∈ rows, rowAttr r ≠ metric) :
    seriesPointFor fetchYear ccode metric is_world world_code country_code y
      = { year := y, value := none, note := none } := by
  unfold seriesPointFor
  rw [h]
  have hm : rows.filter (fun r => decide (rowAttr r = metric)) = [] := by
    rw [List.filter_eq_nil_iff]
    intro r hr
    simpa using h2 r hr
  dsimp only
  rw [hm]
  rfl

theorem seriesPointFor_country_null {fetchYear : PyStr → Int → Option (List Row)}
    {ccode metric : PyStr} {world_code country_code : Option PyStr} {y : Int}
    {rows : List Row} (h : fetchYear ccode y = some rows)
    (h2 : ∀ r ∈ rows, ¬(rowAttr r = metric ∧ rowCCode r = country_code.getD [])) :
    seriesPointFor fetchYear ccode metric false world_code country_code y
      = { year := y, value := none, note := none } := by
  unfold seriesPointFor
  rw [h]
  dsimp only
  by_cases hm : rows.filter (fun r => decide (rowAttr r = metric)) = []
  · rw [hm]
    rfl
  · rw [isEmpty_false_of_ne_nil hm]
    simp only [Bool.false_eq_true, if_false, Bool.false_and, Bool.not_false, Bool.true_and]
    have hfind : (rows.filter (fun r => decide (rowAttr r = metric))).find?
        (fun r => decide (rowCCode r = country_code.getD [])) = none := by
      rw [List.find?_eq_none]
      intro r hr
      rcases List.mem_filter.1 hr with ⟨hrm, hattr⟩
      simp only [decide_eq_true_eq] at hattr ⊢
      exact fun hcc => h2 r hrm ⟨hattr, hcc⟩
    cases hpt : pyTruthy country_code with
    | false => rfl
    | true =>
      rw [hfind]
      rfl

theorem seriesLoop_length (fetchYear : PyStr → Int → Option (List Row)) (ccode metric : PyStr)
    (is_world : Bool) (world_code country_code : Option PyStr) (y_from y_to : Int) :
    (seriesLoop fetchYear ccode metric is_world world_code country_code y_from y_to).length
      = (y_to - y_from).toNat + 1 := by
  unfold seriesLoop
  rw [List.length_map, List.length_range]

theorem seriesLoop_get (fetchYear : PyStr → Int → Option (List Row)) (ccode metric : PyStr)
    (is_world : Bool) (world_code country_code : Option PyStr) (y_from y_to : Int)
    (i : Nat)
    (h : i < (seriesLoop fetchYear ccode metric is_world world_code country_code y_from y_to).length) :
    (seriesLoop fetchYear ccode metric is_world world_code country_code y_from y_to).get ⟨i, h⟩
      = seriesPointFor fetchYear ccode metric is_world world_code country_code (y_from + i) := by
  have hi : i < (y_to - y_from).toNat + 1 := by
    rw [← seriesLoop_length fetchYear ccode metric is_world world_code country_code y_from y_to]
    exact h
  unfold seriesLoop
  rw [List.get_eq_getElem]
  simp only [List.getElem_map, List.getElem_range]

/-- **C1.** For an accepted `/series` request with `from ≤ to` the payload
series is the per-year loop output, and that loop yields exactly
`to - from + 1` points, the `i`-th carrying year `from + i` (so the years
are ascending, one per requested year); a year whose upstream fetch fails
yields a null value plus the `"fetch_error"` marker instead of aborting;
a year whose rows hold no row for the requested attribute yields a null
value; and in country scope a year whose rows hold no row matching both
the attribute and the resolved country yields a null value — no year is
ever omitted. -/
theorem claim_C1
    (fetchComm : Option (List CommodityEntry)) (fetchCtry : Option (List CountryEntry))
    (fetchYear : PyStr → Int → Option (List Row))
    (commodity_name country_name metric_in : PyStr) (y_from y_to : Int)
    (commodities_list : List CommodityEntry) (ccode : PyStr) (cfound : Option PyStr)
    (world_code world_name country_code country_label : Option PyStr)
    (hle : y_from ≤ y_to) (hspan : y_to - y_from ≤ 40)
    (hne : commodity_name ≠ [])
    (hcomm : fetchComm = some commodities_list)
    (hres : resolve_commodity commodities_list commodity_name = (some ccode, cfound))
    (hcc : ccode ≠ [])
    (hstep : seriesCountryStep fetchCtry (decide (normalize country_name ∈ WORLD_WORDS))
      country_name = .ok ((world_code, world_name), (country_code, country_label))) :
    seriesHandler fetchComm fetchCtry fetchYear commodity_name country_name metric_in y_from y_to
      = .ok { commodityCode := ccode, commodityFound := cfound,
              metricUsed := metric_canonical metric_in,
              countryResolved :=
                if decide (normalize country_name ∈ WORLD_WORDS)
                then orElseStr world_name (codes "World")
                else orElseStr country_label country_name,
              series := seriesLoop fetchYear ccode (metric_canonical metric_in)
                (decide (normalize country_name ∈ WORLD_WORDS)) world_code country_code
                y_from y_to }
    ∧ (∀ (metric : PyStr) (iw : Bool) (wc cc : Option PyStr),
        (seriesLoop fetchYear ccode metric iw wc cc y_from y_to).length
          = (y_to - y_from).toNat + 1)
    ∧ (∀ (metric : PyStr) (iw : Bool) (wc cc : Option PyStr) (i : Nat)
        (h : i < (seriesLoop fetchYear ccode metric iw wc cc y_from y_to).length),
        ((seriesLoop fetchYear ccode metric iw wc cc y_from y_to).get ⟨i, h⟩).year
          = y_from + i)
    ∧ (∀ (metric : PyStr) (iw : Bool) (wc cc : Option PyStr) (i : Nat)
        (h : i < (seriesLoop fetchYear ccode metric iw wc cc y_from y_to).length),
        fetchYear ccode (y_from + i) = none →
        (seriesLoop fetchYear ccode metric iw wc cc y_from y_to).get ⟨i, h⟩
          = { year := y_from + i, value := none, note := some (codes "fetch_error") })
    ∧ (∀ (metric : PyStr) (iw : Bool) (wc cc : Option PyStr) (i : Nat)
        (h : i < (seriesLoop fetchYear ccode metric iw wc cc y_from y_to).length)
        (rows2 : List Row),
        fetchYear ccode (y_from + i) = some rows2 → (∀ r ∈ rows2, rowAttr r ≠ metric) →
        (seriesLoop fetchYear ccode metric iw wc cc y_from y_to).get ⟨i, h⟩
          = { year := y_from + i, value := none, note := none })
    ∧ (∀ (metric : PyStr) (wc cc : Option PyStr) (i : Nat)
        (h : i < (seriesLoop fetchYear ccode metric false wc cc y_from y_to).length)
        (rows2 : List Row),
        fetchYear ccode (y_from + i) = some rows2 →
        (∀ r ∈ rows2, ¬(rowAttr r = metric ∧ rowCCode r = cc.getD [])) →
        (seriesLoop fetchYear ccode metric false wc cc y_from y_to).get ⟨i, h⟩
          = { year := y_from + i, value := none, note := none }) := by
  refine ⟨?_, ?_, ?_, ?_, ?_, ?_⟩
  · simp only [seriesHandler, isEmpty_false_of_ne_nil hne, Bool.false_eq_true, if_false,
      if_neg (not_lt.2 hle), if_neg (not_lt.2 hspan), hcomm, hres,
      isEmpty_false_of_ne_nil hcc, hstep]
  · intro metric iw wc cc
    exact seriesLoop_length fetchYear ccode metric iw wc cc y_from y_to
  · intro metric iw wc cc i h
    rw [seriesLoop_get]
    exact seriesPointFor_year fetchYear ccode metric iw wc cc (y_from + i)
  · intro metric iw wc cc i h hfail
    rw [seriesLoop_get]
    exact seriesPointFor_fetchfail hfail
  · intro metric iw wc cc i h rows2 hfetch hnoattr
    rw [seriesLoop_get]
    exact seriesPointFor_noattr hfetch hnoattr
  · intro metric wc cc i h rows2 hfetch hnorow
    rw [seriesLoop_get]
    exact seriesPointFor_country_null hfetch hnorow

/-- Concrete `/series` fixture: commodity catalog. -/
def c1Comm : List CommodityEntry :=
  [{ CommodityName := some (codes "Corn"), CommodityCode := some (codes "0440000") }]

/-- Concrete `/series` fixture: country catalog. -/
def c1Ctry : List CountryEntry :=
  [{ CountryName := some (codes "Brazil"), CountryCode := some (codes "BR") }]

/-- Concrete `/series` fixture: the year oracle fails upstream for 2017,
2020 and 2023 and otherwise returns one Brazil production row. -/
def c1Fy : PyStr → Int → Option (List Row) := fun _ y =>
  if y = 2017 ∨ y = 2020 ∨ y = 2023 then none
  else some [{ AttributeDescription := some (codes "Production"), Value := some (100 + y),
               CountryName := some (codes "Brazil"), CountryCode := some (codes "BR") }]

/-- Witness for C1: `from=2015, to=2024` with three failing years yields the
loop payload of exactly 10 points; the 2017 slot (index 2) carries a null
value and the fetch-error marker. -/
theorem claim_C1_witness :
    seriesHandler (some c1Comm) (some c1Ctry) c1Fy (codes "milho") (codes "brasil")
        (codes "producao") 2015 2024
      = .ok { commodityCode := codes "0440000", commodityFound := some (codes "Corn"),
              metricUsed := metric_canonical (codes "producao"),
              countryResolved :=
                if decide (normalize (codes "brasil") ∈ WORLD_WORDS)
                then orElseStr none (codes "World")
                else orElseStr (some (codes "Brazil")) (codes "brasil"),
              series := seriesLoop c1Fy (codes "0440000") (metric_canonical (codes "producao"))
                (decide (normalize (codes "brasil") ∈ WORLD_WORDS)) none (some (codes "BR"))
                2015 2024 }
    ∧ (seriesLoop c1Fy (codes "0440000") (metric_canonical (codes "producao"))
        (decide (normalize (codes "brasil") ∈ WORLD_WORDS)) none (some (codes "BR"))
        2015 2024).length = ((2024 : Int) - 2015).toNat + 1 := by
  have h := claim_C1 (some c1Comm) (some c1Ctry) c1Fy (codes "milho") (codes "brasil")
    (codes "producao") 2015 2024 c1Comm (codes "0440000") (some (codes "Corn"))
    none none (some (codes "BR")) (some (codes "Brazil"))
    (by decide) (by decide) (by decide) rfl (by decide) (by decide) rfl
  exact ⟨h.1, h.2.1 (metric_canonical (codes "producao"))
    (decide (normalize (codes "brasil") ∈ WORLD_WORDS)) none (some (codes "BR"))⟩

/-! ## Claim C5: range validation of `/series` and `/compare` (corrected)

The source rejects a range only when `to - from > 40`, i.e. it accepts
inclusive ranges of up to 41 years; and `/compare` runs its catalog
fetches and name resolution *before* validating the range. -/

theorem seriesCountryStep_error {fetchCtry : Option (List CountryEntry)} {iw : Bool}
    {country_name : PyStr} {e : Err}
    (h : seriesCountryStep fetchCtry iw country_name = .error e) : e = .countryNotFound := by
  unfold seriesCountryStep at h
  split at h
  · cases h
  · split at h
    · cases h
    · split at h
      · cases h
      · dsimp only at h
        split at h
        · cases h
        · injection h with h
          exact h.symm

/-- **C5 (amended).** `/series`: an inverted range (`to < from`) and an
oversized range (`to - from > 40`, i.e. spanning 42 or more inclusive
years) are rejected as input errors for every oracle — before any upstream
fetch — while any range with `to - from ≤ 40` (up to 41 inclusive years)
is never rejected with a range error.  `/compare` in series mode rejects
the same ranges, for every year-data oracle, but only after its catalog
fetches and name resolution have succeeded. -/
theorem claim_C5 :
    (∀ (fc : Option (List CommodityEntry)) (fcy : Option (List CountryEntry))
      (fy : PyStr → Int → Option (List Row)) (cn ctn mi : PyStr) (f t : Int),
      cn ≠ [] → t < f → seriesHandler fc fcy fy cn ctn mi f t = .error .invertedRange)
    ∧ (∀ (fc : Option (List CommodityEntry)) (fcy : Option (List CountryEntry))
      (fy : PyStr → Int → Option (List Row)) (cn ctn mi : PyStr) (f t : Int),
      cn ≠ [] → f ≤ t → 40 < t - f →
      seriesHandler fc fcy fy cn ctn mi f t = .error .oversizedRange)
    ∧ (∀ (fc : Option (List CommodityEntry)) (fcy : Option (List CountryEntry))
      (fy : PyStr → Int → Option (List Row)) (cn ctn mi : PyStr) (f t : Int) (e : Err),
      cn ≠ [] → f ≤ t → t - f ≤ 40 →
      seriesHandler fc fcy fy cn ctn mi f t = .error e →
      e ≠ .invertedRange ∧ e ≠ .oversizedRange)
    ∧ (∀ (fy : PyStr → Int → Option (List Row))
      (mode_in cn craw mi : PyStr) (y : Option Int) (f t : Int)
      (cl : List CommodityEntry) (ccode : PyStr) (cfound : Option PyStr)
      (cl2 : List CountryEntry),
      cn ≠ [] → craw ≠ [] → parse_countries_param craw ≠ [] →
      resolve_commodity cl cn = (some ccode, cfound) → ccode ≠ [] →
      ((resolveCountries cl2 (parse_countries_param craw)).all
        (fun rc => rc.code = none)) = false →
      normalize mode_in ≠ codes "psd" →
      (t < f → compareHandler (some cl) (some cl2) fy mode_in cn craw mi y (some f) (some t)
        = .error .invertedRange)
      ∧ (f ≤ t → 40 < t - f →
        compareHandler (some cl) (some cl2) fy mode_in cn craw mi y (some f) (some t)
          = .error .oversizedRange)) := by
  refine ⟨?_, ?_, ?_, ?_⟩
  · intro fc fcy fy cn ctn mi f t hne hinv
    simp only [seriesHandler, isEmpty_false_of_ne_nil hne, Bool.false_eq_true, if_false,
      if_pos hinv]
  · intro fc fcy fy cn ctn mi f t hne hle hbig
    simp only [seriesHandler, isEmpty_false_of_ne_nil hne, Bool.false_eq_true, if_false,
      if_neg (not_lt.2 hle), if_pos hbig]
  · intro fc fcy fy cn ctn mi f t e hne hle hsmall he
    simp only [seriesHandler, isEmpty_false_of_ne_nil hne, Bool.false_eq_true, if_false,
      if_neg (not_lt.2 hle), if_neg (not_lt.2 hsmall)] at he
    cases hfc : fc with
    | none =>
      rw [hfc] at he
      injection he with he
      subst he
      exact ⟨by decide, by decide⟩
    | some cl =>
      rw [hfc] at he
      dsimp only at he
      rcases hres : resolve_commodity cl cn with ⟨oc, ofn⟩
      rw [hres] at he
      cases oc with
      | none =>
        dsimp only at he
        injection he with he
        subst he
        exact ⟨by decide, by decide⟩
      | some cd =>
        dsimp only at he
        by_cases hcd : cd.isEmpty = true
        · rw [if_pos hcd] at he
          injection he with he
          subst he
          exact ⟨by decide, by decide⟩
        · rw [if_neg hcd] at he
          cases hst : seriesCountryStep fcy (decide (normalize ctn ∈ WORLD_WORDS)) ctn with
          | error e2 =>
            rw [hst] at he
            dsimp only at he
            injection he with he
            subst he
            have := seriesCountryStep_error hst
            subst this
            exact ⟨by decide, by decide⟩
          | ok st =>
            rcases st with ⟨⟨wc, wn⟩, cc, cla⟩
            rw [hst] at he
            dsimp only at he
            cases he
  · intro fy mode_in cn craw mi y f t cl ccode cfound cl2 hcn hcraw hreq hres hcc hall hmode
    constructor
    · intro hinv
      simp only [compareHandler, isEmpty_false_of_ne_nil hcn, isEmpty_false_of_ne_nil hcraw,
        Bool.or_self, Bool.false_eq_true, if_false, isEmpty_false_of_ne_nil hreq,
        hres, isEmpty_false_of_ne_nil hcc, hall, if_neg hmode, if_pos hinv]
    · intro hle hbig
      simp only [compareHandler, isEmpty_false_of_ne_nil hcn, isEmpty_false_of_ne_nil hcraw,
        Bool.or_self, Bool.false_eq_true, if_false, isEmpty_false_of_ne_nil hreq,
        hres, isEmpty_false_of_ne_nil hcc, hall, if_neg hmode,
        if_neg (not_lt.2 hle), if_pos hbig]

/-- Concrete counterexample fixtures for C5. -/
def c5Comm : Option (List CommodityEntry) :=
  some [{ CommodityName := some (codes "Soybeans"), CommodityCode := some (codes "2222000") }]

/-- Concrete counterexample fixtures for C5. -/
def c5Ctry : Option (List CountryEntry) :=
  some [{ CountryName := some (codes "Brazil"), CountryCode := some (codes "BR") }]

/-- The payload the `/series` handler actually returns for the 41-year
range `2000..2040`. -/
def c5Out : SeriesOut :=
  match seriesHandler c5Comm c5Ctry (fun _ _ => some []) (codes "soja") (codes "brasil")
      (codes "producao") 2000 2040 with
  | .ok o => o
  | .error _ =>
    { commodityCode := [], commodityFound := none, metricUsed := [],
      countryResolved := [], series := [] }

set_option maxRecDepth 20000 in
/-- Counterexample to C5 as stated: `from=2000, to=2040` spans 41 inclusive
years — more than 40 — yet the request is *accepted* (the handler performs
its fetches and returns a 41-point series instead of an input error). -/
theorem claim_C5_counterexample :
    seriesHandler c5Comm c5Ctry (fun _ _ => some []) (codes "soja") (codes "brasil")
        (codes "producao") 2000 2040 = Except.ok c5Out
    ∧ c5Out.series.length = 41
    ∧ (2040 : Int) - 2000 + 1 = 41 := by
  refine ⟨rfl, by decide, by decide⟩

/-- Witness for C5: concrete rejections of an inverted and an oversized
range on `/series` and on `/compare` in series mode. -/
theorem claim_C5_witness :
    seriesHandler c5Comm c5Ctry (fun _ _ => some []) (codes "soja") (codes "brasil")
        (codes "producao") 2024 2015 = .error .invertedRange
    ∧ seriesHandler c5Comm c5Ctry (fun _ _ => some []) (codes "soja") (codes "brasil")
        (codes "producao") 2000 2041 = .error .oversizedRange
    ∧ compareHandler c5Comm c5Ctry (fun _ _ => some []) (codes "series") (codes "soja")
        (codes "brasil") (codes "producao") none (some 2000) (some 2041)
      = .error .oversizedRange := by
  refine ⟨claim_C5.1 c5Comm c5Ctry (fun _ _ => some []) (codes "soja") (codes "brasil")
      (codes "producao") 2024 2015 (by decide) (by decide),
    claim_C5.2.1 c5Comm c5Ctry (fun _ _ => some []) (codes "soja") (codes "brasil")
      (codes "producao") 2000 2041 (by decide) (by decide) (by decide), ?_⟩
  have h := claim_C5.2.2.2 (fun _ _ => some []) (codes "series") (codes "soja")
    (codes "brasil") (codes "producao") none 2000 2041
    [{ CommodityName := some (codes "Soybeans"), CommodityCode := some (codes "2222000") }]
    (codes "2222000") (some (codes "Soybeans"))
    [{ CountryName := some (codes "Brazil"), CountryCode := some (codes "BR") }]
    (by decide) (by decide) (by decide) (by decide) (by decide) (by decide) (by decide)
  exact h.2 (by decide) (by decide)

/-! ## Claim C3: soy disambiguation -/

/-- The grain entry of the C3 catalog, with a symbolic code. -/
def soyE1 (c : PyStr) : CommodityEntry :=
  { CommodityName := some (codes "Soybeans"), CommodityCode := some c }

/-- The meal entry of the C3 catalog, with a symbolic code. -/
def soyE2 (c : PyStr) : CommodityEntry :=
  { CommodityName := some (codes "Meal, Soybean"), CommodityCode := some c }

/-- The oil entry of the C3 catalog, with a symbolic code. -/
def soyE3 (c : PyStr) : CommodityEntry :=
  { CommodityName := some (codes "Oil, Soybean"), CommodityCode := some c }

/-- The three-entry catalog of claim C3. -/
def soyCatalog (c1 c2 c3 : PyStr) : List CommodityEntry := [soyE1 c1, soyE2 c2, soyE3 c3]

theorem soy_code {c : PyStr} (hs : pyStrip c = c) (hn : c ≠ []) :
    pyStrip (firstTruthy [some c, none, none]) = c := by
  simp [firstTruthy, isEmpty_false_of_ne_nil hn, hs]

theorem candidatesFor_nil (a : PyStr) : candidatesFor [] a = [] := rfl

theorem candidatesFor_entry_some {e : CommodityEntry} {a : PyStr} (rest : List CommodityEntry)
    (hnm : commodity_display e ≠ []) (hcd : commodity_code e ≠ [])
    (hmatch : commodityMatch (normalize a) (strip_nonletters a)
      (normalize (commodity_display e)) (strip_nonletters (commodity_display e)) = true) :
    candidatesFor (e :: rest) a
      = (commodity_display e, commodity_code e) :: candidatesFor rest a := by
  unfold candidatesFor
  rw [List.filterMap_cons]
  dsimp only
  rw [isEmpty_false_of_ne_nil hnm, isEmpty_false_of_ne_nil hcd]
  simp only [Bool.or_self, Bool.false_eq_true, if_false, hmatch, if_true]

theorem candidatesFor_entry_nomatch {e : CommodityEntry} {a : PyStr} (rest : List CommodityEntry)
    (hmatch : commodityMatch (normalize a) (strip_nonletters a)
      (normalize (commodity_display e)) (strip_nonletters (commodity_display e)) = false) :
    candidatesFor (e :: rest) a = candidatesFor rest a := by
  unfold candidatesFor
  rw [List.filterMap_cons]
  dsimp only
  by_cases hg : (commodity_display e).isEmpty || (commodity_code e).isEmpty
  · rw [if_pos hg]
  · rw [if_neg hg, hmatch]
    simp

theorem foldBest_keep (key : PyStr) :
    ∀ (rest : List (PyStr × PyStr)) (b : Int × Option PyStr × Option PyStr),
      (∀ c ∈ rest, score_commodity c.1 key ≤ b.1) →
      rest.foldl (fun (b : Int × Option PyStr × Option PyStr) c =>
        if score_commodity c.1 key > b.1 then (score_commodity c.1 key, some c.2, some c.1)
        else b) b = b
  | [], _, _ => rfl
  | c :: cs, b, h => by
    rw [List.foldl_cons]
    rw [if_neg (not_lt.2 (h c (List.mem_cons_self c cs)))]
    exact foldBest_keep key cs b (fun d hd => h d (List.mem_cons_of_mem c hd))

/-- When the head candidate scores above the `-10**9` floor and at least as
high as every later candidate, the strict-improvement loop keeps the head. -/
theorem bestCandidate_first_max (key : PyStr) (nm cd : PyStr) (rest : List (PyStr × PyStr))
    (hfirst : score_commodity nm key > -(10 ^ 9 : Int))
    (hrest : ∀ c ∈ rest, score_commodity c.1 key ≤ score_commodity nm key) :
    bestCandidate key ((nm, cd) :: rest) = (some cd, some nm) := by
  unfold bestCandidate
  rw [List.foldl_cons]
  dsimp only
  rw [if_pos hfirst]
  rw [foldBest_keep key rest _ hrest]

/-- **C3.** On a catalog holding exactly the entries `"Soybeans"`,
`"Meal, Soybean"` and `"Oil, Soybean"` — with arbitrary non-empty (and
whitespace-trimmed) codes — resolving `"soja"` and resolving `"soybeans"`
both pick the `"Soybeans"` entry, never the meal or oil entries: the soy
bonuses score the grain at 200 (resp. 210) versus −200 for the meal and
−120 for the oil entry. -/
theorem claim_C3 (c1 c2 c3 : PyStr)
    (h1s : pyStrip c1 = c1) (h1n : c1 ≠ [])
    (h2s : pyStrip c2 = c2) (h2n : c2 ≠ [])
    (h3s : pyStrip c3 = c3) (h3n : c3 ≠ []) :
    resolve_commodity (soyCatalog c1 c2 c3) (codes "soja")
      = (some c1, some (codes "Soybeans"))
    ∧ resolve_commodity (soyCatalog c1 c2 c3) (codes "soybeans")
      = (some c1, some (codes "Soybeans")) := by
  have e1d : commodity_display (soyE1 c1) = codes "Soybeans" := rfl
  have e2d : commodity_display (soyE2 c2) = codes "Meal, Soybean" := rfl
  have e3d : commodity_display (soyE3 c3) = codes "Oil, Soybean" := rfl
  have e1c : commodity_code (soyE1 c1) = c1 := soy_code h1s h1n
  have e2c : commodity_code (soyE2 c2) = c2 := soy_code h2s h2n
  have e3c : commodity_code (soyE3 c3) = c3 := soy_code h3s h3n
  have e1n : commodity_display (soyE1 c1) ≠ [] := by rw [e1d]; decide
  have e2n : commodity_display (soyE2 c2) ≠ [] := by rw [e2d]; decide
  have e3n : commodity_display (soyE3 c3) ≠ [] := by rw [e3d]; decide
  have e1cn : commodity_code (soyE1 c1) ≠ [] := by rw [e1c]; exact h1n
  have e2cn : commodity_code (soyE2 c2) ≠ [] := by rw [e2c]; exact h2n
  have e3cn : commodity_code (soyE3 c3) ≠ [] := by rw [e3c]; exact h3n
  -- candidate lists per alias term
  have cands1 : candidatesFor (soyCatalog c1 c2 c3) (codes "soybeans")
      = [(codes "Soybeans", c1)] := by
    show candidatesFor (soyE1 c1 :: soyE2 c2 :: soyE3 c3 :: []) (codes "soybeans") = _
    rw [candidatesFor_entry_some _ e1n e1cn (by rw [e1d]; decide),
      candidatesFor_entry_nomatch _ (by rw [e2d]; decide),
      candidatesFor_entry_nomatch _ (by rw [e3d]; decide),
      candidatesFor_nil, e1d, e1c]
  have cands2 : candidatesFor (soyCatalog c1 c2 c3) (codes "soybean")
      = [(codes "Soybeans", c1), (codes "Meal, Soybean", c2), (codes "Oil, Soybean", c3)] := by
    show candidatesFor (soyE1 c1 :: soyE2 c2 :: soyE3 c3 :: []) (codes "soybean") = _
    rw [candidatesFor_entry_some _ e1n e1cn (by rw [e1d]; decide),
      candidatesFor_entry_some _ e2n e2cn (by rw [e2d]; decide),
      candidatesFor_entry_some _ e3n e3cn (by rw [e3d]; decide),
      candidatesFor_nil, e1d, e1c, e2d, e2c, e3d, e3c]
  have cands3 : candidatesFor (soyCatalog c1 c2 c3) (codes "soy")
      = [(codes "Soybeans", c1), (codes "Meal, Soybean", c2), (codes "Oil, Soybean", c3)] := by
    show candidatesFor (soyE1 c1 :: soyE2 c2 :: soyE3 c3 :: []) (codes "soy") = _
    rw [candidatesFor_entry_some _ e1n e1cn (by rw [e1d]; decide),
      candidatesFor_entry_some _ e2n e2cn (by rw [e2d]; decide),
      candidatesFor_entry_some _ e3n e3cn (by rw [e3d]; decide),
      candidatesFor_nil, e1d, e1c, e2d, e2c, e3d, e3c]
  have cands4 : candidatesFor (soyCatalog c1 c2 c3) (codes "oilseed, soybean") = [] := by
    show candidatesFor (soyE1 c1 :: soyE2 c2 :: soyE3 c3 :: []) (codes "oilseed, soybean") = _
    rw [candidatesFor_entry_nomatch _ (by rw [e1d]; decide),
      candidatesFor_entry_nomatch _ (by rw [e2d]; decide),
      candidatesFor_entry_nomatch _ (by rw [e3d]; decide),
      candidatesFor_nil]
  have sS : score_commodity (codes "Soybeans") (codes "soja") = 200 := by decide
  have sM : score_commodity (codes "Meal, Soybean") (codes "soja") = -200 := by decide
  have sO : score_commodity (codes "Oil, Soybean") (codes "soja") = -120 := by decide
  have sS2 : score_commodity (codes "Soybeans") (codes "soybeans") = 210 := by decide
  constructor
  · unfold resolve_commodity
    dsimp only
    rw [show isCodePattern (pyStrip (codes "soja")) = false from by decide]
    simp only [Bool.false_eq_true, if_false]
    rw [show (lookupTable PT_COMMODITY_ALIASES (normalize (pyStrip (codes "soja")))).getD
        [pyStrip (codes "soja")]
      = [codes "soybeans", codes "soybean", codes "soy", codes "oilseed, soybean"]
      from by decide]
    rw [show normalize (pyStrip (codes "soja")) = codes "soja" from by decide]
    simp only [List.flatMap_cons, List.flatMap_nil, cands1, cands2, cands3, cands4,
      List.append_nil, List.nil_append, List.cons_append]
    rw [show ([(codes "Soybeans", c1), (codes "Soybeans", c1), (codes "Meal, Soybean", c2),
        (codes "Oil, Soybean", c3), (codes "Soybeans", c1), (codes "Meal, Soybean", c2),
        (codes "Oil, Soybean", c3)] : List (PyStr × PyStr)).isEmpty = false from rfl]
    simp only [Bool.false_eq_true, if_false]
    refine bestCandidate_first_max (codes "soja") (codes "Soybeans") c1 _ ?_ ?_
    · rw [sS]; decide
    · intro c hc
      simp only [List.mem_cons, List.not_mem_nil, or_false] at hc
      rcases hc with rfl | rfl | rfl | rfl | rfl | rfl <;>
        simp only [sS, sM, sO] <;> decide
  · unfold resolve_commodity
    dsimp only
    rw [show isCodePattern (pyStrip (codes "soybeans")) = false from by decide]
    simp only [Bool.false_eq_true, if_false]
    rw [show (lookupTable PT_COMMODITY_ALIASES (normalize (pyStrip (codes "soybeans")))).getD
        [pyStrip (codes "soybeans")]
      = [codes "soybeans"]
      from by decide]
    rw [show normalize (pyStrip (codes "soybeans")) = codes "soybeans" from by decide]
    simp only [List.flatMap_cons, List.flatMap_nil, cands1, List.append_nil]
    rw [show ([(codes "Soybeans", c1)] : List (PyStr × PyStr)).isEmpty = false from rfl]
    simp only [Bool.false_eq_true, if_false]
    refine bestCandidate_first_max (codes "soybeans") (codes "Soybeans") c1 [] ?_ ?_
    · rw [sS2]; decide
    · intro c hc
      simp at hc

/-- Witness for C3: the claim instantiated at the provider-style codes. -/
theorem claim_C3_witness :
    resolve_commodity (soyCatalog (codes "2222000") (codes "0813100") (codes "4232000"))
        (codes "soja")
      = (some (codes "2222000"), some (codes "Soybeans"))
    ∧ resolve_commodity (soyCatalog (codes "2222000") (codes "0813100") (codes "4232000"))
        (codes "soybeans")
      = (some (codes "2222000"), some (codes "Soybeans")) :=
  claim_C3 (codes "2222000") (codes "0813100") (codes "4232000")
    (by decide) (by decide) (by decide) (by decide) (by decide) (by decide)

/-! ## Claim C7: `/compare` per-country slots (corrected)

The per-country failure flags hold for `mode=psd` (`country_not_found` /
`no_data`); in `mode=series` a resolved country with no matching rows gets
a series of null points and *no* distinct no-data flag. -/

theorem dedupGo_sublist : ∀ (l seen : List PyStr), List.Sublist (dedupGo seen l) l
  | [], _ => List.Sublist.refl []
  | p :: rest, seen => by
    unfold dedupGo
    split
    · exact (dedupGo_sublist rest seen).cons p
    · exact (dedupGo_sublist rest (normalize p :: seen)).cons₂ p

theorem dedupGo_nodup : ∀ (l seen : List PyStr),
    ((dedupGo seen l).map normalize).Nodup ∧ ∀ x ∈ dedupGo seen l, normalize x ∉ seen
  | [], seen => by simp [dedupGo]
  | p :: rest, seen => by
    unfold dedupGo
    split
    · exact (dedupGo_nodup rest seen)
    · next hnew =>
      obtain ⟨ih1, ih2⟩ := dedupGo_nodup rest (normalize p :: seen)
      constructor
      · rw [List.map_cons, List.nodup_cons]
        refine ⟨?_, ih1⟩
        intro hmem
        rcases List.mem_map.1 hmem with ⟨x, hx, hnx⟩
        exact (ih2 x hx) (by rw [hnx]; exact List.mem_cons_self _ _)
      · intro x hx
        rcases List.mem_cons.1 hx with rfl | hx2
        · exact hnew
        · exact fun hs => (ih2 x hx2) (List.mem_cons_of_mem _ hs)

theorem dedupGo_complete : ∀ (l seen : List PyStr) (p : PyStr), p ∈ l →
    normalize p ∈ seen ∨ normalize p ∈ (dedupGo seen l).map normalize
  | [], _, _, hp => by simp at hp
  | q :: rest, seen, p, hp => by
    unfold dedupGo
    by_cases hseen : normalize q ∈ seen
    · rw [if_pos hseen]
      rcases List.mem_cons.1 hp with rfl | hp2
      · exact Or.inl hseen
      · exact dedupGo_complete rest seen p hp2
    · rw [if_neg hseen]
      rcases List.mem_cons.1 hp with rfl | hp2
      · right
        rw [List.map_cons]
        exact List.mem_cons_self _ _
      · rcases dedupGo_complete rest (normalize q :: seen) p hp2 with h | h
        · rcases List.mem_cons.1 h with heq | hs
          · right
            rw [List.map_cons, heq]
            exact List.mem_cons_self _ _
          · exact Or.inl hs
        · right
          rw [List.map_cons]
          exact List.mem_cons_of_mem _ h

/-- The `/compare` psd-mode slot of an unresolved country carries the
`country_not_found` flag. -/
theorem psdSlot_unresolved (rows_bs : List Row) (rc : RC) (h : rc.code = none) :
    psdSlot rows_bs rc
      = { country := some rc.input, error := some (codes "country_not_found") } := by
  unfold psdSlot
  rw [h]
  rfl

/-- The `/compare` psd-mode slot of a resolved country with no balance-sheet
rows carries the distinct `no_data` flag. -/
theorem psdSlot_no_data (rows_bs : List Row) (rc : RC) (code : PyStr)
    (h : rc.code = some code) (hcode : code ≠ [])
    (hrows : rows_bs.filter (fun r => decide (rowCCode r = code)) = []) :
    psdSlot rows_bs rc
      = { country := rc.name, countryCode := rc.code, error := some (codes "no_data") } := by
  unfold psdSlot
  rw [h]
  simp only [pyTruthy, isEmpty_false_of_ne_nil hcode, Bool.not_false, Bool.true_eq_false,
    if_false, Option.getD_some, hrows]
  rfl

/-- The `/compare` series-mode slot of an unresolved country carries the
`country_not_found` flag. -/
theorem compareSeriesSlot_unresolved (fetchYear : PyStr → Int → Option (List Row))
    (ccode metric : PyStr) (y_from y_to : Int) (rc : RC) (h : rc.code = none) :
    compareSeriesSlot fetchYear ccode metric y_from y_to rc
      = { country := some rc.input, countryCode := none, series := none,
          error := some (codes "country_not_found") } := by
  unfold compareSeriesSlot
  rw [h]
  rfl

/-- The `/compare` series-mode slot of a resolved country is the per-year
point list with *no* error flag of any kind. -/
theorem compareSeriesSlot_resolved (fetchYear : PyStr → Int → Option (List Row))
    (ccode metric : PyStr) (y_from y_to : Int) (rc : RC) (code : PyStr)
    (h : rc.code = some code) (hcode : code ≠ []) :
    compareSeriesSlot fetchYear ccode metric y_from y_to rc
      = { country := rc.name, countryCode := rc.code,
          series := some ((List.range ((y_to - y_from).toNat + 1)).map
            (fun (i : Nat) => comparePointFor fetchYear ccode metric code (y_from + (i : Int)))) } := by
  unfold compareSeriesSlot
  rw [h]
  simp only [pyTruthy, isEmpty_false_of_ne_nil hcode, Bool.not_false, Bool.not_true,
    Bool.false_eq_true, Bool.true_eq_false, if_false, Option.getD_some]

theorem comparePointFor_fetchfail {fetchYear : PyStr → Int → Option (List Row)}
    {ccode metric code : PyStr} {y : Int} (h : fetchYear ccode y = none) :
    comparePointFor fetchYear ccode metric code y = { year := y, value := none } := by
  unfold comparePointFor
  rw [h]

theorem comparePointFor_norow {fetchYear : PyStr → Int → Option (List Row)}
    {ccode metric code : PyStr} {y : Int} {rows2 : List Row}
    (h : fetchYear ccode y = some rows2)
    (h2 : ∀ r ∈ rows2, ¬(rowAttr r = metric ∧ rowCCode r = code)) :
    comparePointFor fetchYear ccode metric code y = { year := y, value := none } := by
  unfold comparePointFor
  rw [h]
  have hm : rows2.filter (fun r => decide (rowAttr r = metric ∧ rowCCode r = code)) = [] := by
    rw [List.filter_eq_nil_iff]
    intro r hr
    simpa using h2 r hr
  dsimp only
  rw [hm]
  rfl

/-- **C7 (amended).** The `countries` parameter is split on comma, pipe or
semicolon and deduplicated by normalized form with original order preserved
(the surviving list is a sublist of the split parts, its normalized forms
are pairwise distinct, and every split part's normalized form survives).
For an accepted `/compare` request (at least one country resolved) the
response carries one result slot per surviving requested country in request
order, each produced from that country's own resolution alone.  In
`mode=psd` an unresolved country's slot carries the `country_not_found`
flag and a resolved country with no matching balance-sheet rows carries the
distinct `no_data` flag; in `mode=series` an unresolved country's slot
carries the `country_not_found` flag while a resolved country's slot is a
per-year point list that is null-valued where no row matches — with no
distinct no-data flag — and in both modes the other slots are unaffected. -/
theorem claim_C7 :
    (∀ raw : PyStr, List.Sublist (parse_countries_param raw) (splitParts raw))
    ∧ (∀ raw : PyStr, ((parse_countries_param raw).map normalize).Nodup)
    ∧ (∀ (raw p : PyStr), p ∈ splitParts raw →
        normalize p ∈ (parse_countries_param raw).map normalize)
    ∧ (∀ (cl2 : List CountryEntry) (reqs : List PyStr),
        (resolveCountries cl2 reqs).length = reqs.length)
    ∧ (∀ (fy : PyStr → Int → Option (List Row)) (mode_in cn craw mi : PyStr)
        (year_i : Int) (yf yt : Option Int) (cl : List CommodityEntry) (ccode : PyStr)
        (cfound : Option PyStr) (cl2 : List CountryEntry) (rows : List Row),
        cn ≠ [] → craw ≠ [] → parse_countries_param craw ≠ [] →
        resolve_commodity cl cn = (some ccode, cfound) → ccode ≠ [] →
        ((resolveCountries cl2 (parse_countries_param craw)).all
          (fun rc => rc.code = none)) = false →
        normalize mode_in = codes "psd" →
        fy ccode year_i = some rows →
        compareHandler (some cl) (some cl2) fy mode_in cn craw mi (some year_i) yf yt
          = .ok { commodityCode := ccode, commodityFound := cfound,
                  results := (resolveCountries cl2 (parse_countries_param craw)).map
                    (psdSlot (filter_to_balance_sheet rows)),
                  resolved_countries := resolveCountries cl2 (parse_countries_param craw) })
    ∧ (∀ (fy : PyStr → Int → Option (List Row)) (mode_in cn craw mi : PyStr)
        (y : Option Int) (f t : Int) (cl : List CommodityEntry) (ccode : PyStr)
        (cfound : Option PyStr) (cl2 : List CountryEntry),
        cn ≠ [] → craw ≠ [] → parse_countries_param craw ≠ [] →
        resolve_commodity cl cn = (some ccode, cfound) → ccode ≠ [] →
        ((resolveCountries cl2 (parse_countries_param craw)).all
          (fun rc => rc.code = none)) = false →
        normalize mode_in ≠ codes "psd" → f ≤ t → t - f ≤ 40 →
        compareHandler (some cl) (some cl2) fy mode_in cn craw mi y (some f) (some t)
          = .ok { commodityCode := ccode, commodityFound := cfound,
                  results := (resolveCountries cl2 (parse_countries_param craw)).map
                    (compareSeriesSlot fy ccode (metric_canonical mi) f t),
                  resolved_countries := resolveCountries cl2 (parse_countries_param craw) })
    ∧ (∀ (rows_bs : List Row) (rc : RC), rc.code = none →
        psdSlot rows_bs rc
          = { country := some rc.input, error := some (codes "country_not_found") })
    ∧ (∀ (rows_bs : List Row) (rc : RC) (code : PyStr), rc.code = some code → code ≠ [] →
        rows_bs.filter (fun r => decide (rowCCode r = code)) = [] →
        psdSlot rows_bs rc
          = { country := rc.name, countryCode := rc.code, error := some (codes "no_data") })
    ∧ (∀ (fy : PyStr → Int → Option (List Row)) (cc m : PyStr) (f t : Int) (rc : RC),
        rc.code = none →
        compareSeriesSlot fy cc m f t rc
          = { country := some rc.input, countryCode := none, series := none,
              error := some (codes "country_not_found") })
    ∧ (∀ (fy : PyStr → Int → Option (List Row)) (cc m : PyStr) (f t : Int) (rc : RC)
        (code : PyStr), rc.code = some code → code ≠ [] →
        compareSeriesSlot fy cc m f t rc
          = { country := rc.name, countryCode := rc.code,
              series := some ((List.range ((t - f).toNat + 1)).map
                (fun (i : Nat) => comparePointFor fy cc m code (f + (i : Int)))) })
    ∧ (∀ (fy : PyStr → Int → Option (List Row)) (cc m code : PyStr) (y : Int),
        fy cc y = none → comparePointFor fy cc m code y = { year := y, value := none })
    ∧ (∀ (fy : PyStr → Int → Option (List Row)) (cc m code : PyStr) (y : Int)
        (rows2 : List Row), fy cc y = some rows2 →
        (∀ r ∈ rows2, ¬(rowAttr r = m ∧ rowCCode r = code)) →
        comparePointFor fy cc m code y = { year := y, value := none }) := by
  refine ⟨?_, ?_, ?_, ?_, ?_, ?_,
    fun rows_bs rc h => psdSlot_unresolved rows_bs rc h,
    fun rows_bs rc code h hc hr => psdSlot_no_data rows_bs rc code h hc hr,
    fun fy cc m f t rc h => compareSeriesSlot_unresolved fy cc m f t rc h,
    fun fy cc m f t rc code h hc => compareSeriesSlot_resolved fy cc m f t rc code h hc,
    fun fy cc m code y h => comparePointFor_fetchfail h,
    fun fy cc m code y rows2 h h2 => comparePointFor_norow h h2⟩
  · intro raw
    unfold parse_countries_param
    by_cases h : raw.isEmpty = true
    · rw [if_pos h]
      exact List.nil_sublist _
    · rw [if_neg h]
      exact dedupGo_sublist (splitParts raw) []
  · intro raw
    unfold parse_countries_param
    by_cases h : raw.isEmpty = true
    · rw [if_pos h]
      simp
    · rw [if_neg h]
      exact (dedupGo_nodup (splitParts raw) []).1
  · intro raw p hp
    unfold parse_countries_param
    by_cases h : raw.isEmpty = true
    · have hraw : raw = [] := by
        cases raw with
        | nil => rfl
        | cons a t => simp [List.isEmpty] at h
      subst hraw
      rw [show splitParts ([] : PyStr) = [] from by decide] at hp
      simp at hp
    · rw [if_neg h]
      rcases dedupGo_complete (splitParts raw) [] p hp with h2 | h2
      · simp at h2
      · exact h2
  · intro cl2 reqs
    unfold resolveCountries
    rw [List.length_map]
  · intro fy mode_in cn craw mi year_i yf yt cl ccode cfound cl2 rows
      hcn hcraw hreq hres hcc hall hmode hyear
    simp only [compareHandler, isEmpty_false_of_ne_nil hcn, isEmpty_false_of_ne_nil hcraw,
      Bool.or_self, Bool.false_eq_true, if_false, isEmpty_false_of_ne_nil hreq,
      hres, isEmpty_false_of_ne_nil hcc, hall, if_pos hmode, hyear]
  · intro fy mode_in cn craw mi y f t cl ccode cfound cl2
      hcn hcraw hreq hres hcc hall hmode hle hspan
    simp only [compareHandler, isEmpty_false_of_ne_nil hcn, isEmpty_false_of_ne_nil hcraw,
      Bool.or_self, Bool.false_eq_true, if_false, isEmpty_false_of_ne_nil hreq,
      hres, isEmpty_false_of_ne_nil hcc, hall, if_neg hmode,
      if_neg (not_lt.2 hle), if_neg (not_lt.2 hspan)]

/-- Concrete `/compare` fixture: commodity catalog. -/
def c7Comm : List CommodityEntry :=
  [{ CommodityName := some (codes "Soybeans"), CommodityCode := some (codes "2222000") }]

/-- Concrete `/compare` fixture: country catalog (Brazil and Argentina). -/
def c7Ctry : List CountryEntry :=
  [{ CountryName := some (codes "Brazil"), CountryCode := some (codes "BR") },
   { CountryName := some (codes "Argentina"), CountryCode := some (codes "AR") }]

/-- The payload `/compare` actually returns in series mode for a resolved
country whose rows never match. -/
def c7Out : CompareOut :=
  match compareHandler (some c7Comm) (some c7Ctry) (fun _ _ => some []) (codes "series")
      (codes "soja") (codes "brasil") (codes "producao") none (some 2020) (some 2021) with
  | .ok o => o
  | .error _ =>
    { commodityCode := [], commodityFound := none, results := [], resolved_countries := [] }

/-- Counterexample to C7 as stated: in series mode the slot of a *resolved*
country with no matching rows carries no distinct no-data flag — its
`error` field is absent (`none`) and its series is just null-valued points. -/
theorem claim_C7_counterexample :
    compareHandler (some c7Comm) (some c7Ctry) (fun _ _ => some []) (codes "series")
        (codes "soja") (codes "brasil") (codes "producao") none (some 2020) (some 2021)
      = Except.ok c7Out
    ∧ c7Out.resolved_countries
      = [{ input := codes "brasil", code := some (codes "BR"), name := some (codes "Brazil") }]
    ∧ c7Out.results
      = [{ country := some (codes "Brazil"), countryCode := some (codes "BR"),
           series := some [{ year := 2020, value := none }, { year := 2021, value := none }] }]
    ∧ c7Out.results.map CompareSlot.error = [none] := by
  exact ⟨rfl, by decide, by decide, by decide⟩

/-- Witness for C7: the `"brasil,argentina,xx-unknown"` example in psd mode
— three slots in request order, the third produced by the unresolved-slot
rule. -/
theorem claim_C7_witness :
    compareHandler (some c7Comm) (some c7Ctry) (fun _ _ => some []) (codes "psd")
        (codes "soja") (codes "brasil,argentina,xx-unknown") (codes "producao")
        (some 2024) none none
      = .ok { commodityCode := codes "2222000", commodityFound := some (codes "Soybeans"),
              results := (resolveCountries c7Ctry
                  (parse_countries_param (codes "brasil,argentina,xx-unknown"))).map
                (psdSlot (filter_to_balance_sheet [])),
              resolved_countries := resolveCountries c7Ctry
                (parse_countries_param (codes "brasil,argentina,xx-unknown")) }
    ∧ psdSlot (filter_to_balance_sheet [])
        { input := codes "xx-unknown", code := none, name := none }
      = { country := some (codes "xx-unknown"), error := some (codes "country_not_found") }
    ∧ (resolveCountries c7Ctry
        (parse_countries_param (codes "brasil,argentina,xx-unknown"))).length
      = (parse_countries_param (codes "brasil,argentina,xx-unknown")).length := by
  refine ⟨claim_C7.2.2.2.2.1 (fun _ _ => some []) (codes "psd") (codes "soja")
      (codes "brasil,argentina,xx-unknown") (codes "producao") 2024 none none
      c7Comm (codes "2222000") (some (codes "Soybeans")) c7Ctry []
      (by decide) (by decide) (by decide) (by decide) (by decide) (by decide) (by decide) rfl,
    claim_C7.2.2.2.2.2.2.1 (filter_to_balance_sheet [])
      { input := codes "xx-unknown", code := none, name := none } rfl,
    claim_C7.2.2.2.1 c7Ctry (parse_countries_param (codes "brasil,argentina,xx-unknown"))⟩

end App
